import Mathlib

/-!
Shallow embedding of the trigger subsystem of the dify-plugin-sdks example
providers (Slack, GitHub, Gmail, Google Calendar, Google Drive, Dropbox) and
proofs about the behaviour of their webhook dispatchers, lifecycle managers
and event projectors.

External effects (HTTP round-trips, HMAC-SHA256, JSON decoding of raw bodies,
base64, wall-clock time, the subscription store backend) are passed in as
explicit parameters; all control flow, header handling, cursor/checkpoint
persistence and payload partitioning is translated statement by statement
from the Python sources under `examples/*/provider` and
`examples/github_trigger/events`.
-/

namespace DifySpec

/-- JSON-like values as produced by Python's `json.loads`: the payloads,
subscription `parameters` and `properties` flowing through the dispatchers. -/
inductive Json where
  | null
  | bool (b : Bool)
  | num (n : Int)
  | str (s : String)
  | arr (items : List Json)
  | obj (fields : List (String × Json))

namespace Json

/-- Python `x == "literal"` for a JSON value: true exactly when the value is
that string. -/
def isStr (j : Json) (s : String) : Bool :=
  match j with
  | .str t => t == s
  | _ => false

/-- Python `dict.get(key)`: `None` (here `Json.null`) when the key is absent
or the receiver is not a dict. -/
def get : Json → String → Json
  | .obj fields, key =>
    match fields.find? (fun kv => kv.1 == key) with
    | some kv => kv.2
    | none => .null
  | _, _ => .null

/-- Python truthiness of a JSON value (`bool(x)`). -/
def truthy : Json → Bool
  | .null => false
  | .bool b => b
  | .num n => n != 0
  | .str s => s != ""
  | .arr items => !items.isEmpty
  | .obj fields => !fields.isEmpty

/-- Python `str(x)` for the scalar values that actually flow through the
dispatchers (ids, tokens, actions); containers are rendered only loosely. -/
def pyStr : Json → String
  | .null => "None"
  | .bool true => "True"
  | .bool false => "False"
  | .num n => toString n
  | .str s => s
  | .arr _ => "<list>"
  | .obj _ => "<dict>"

/-- Python `x or ""` followed by `str(...)`: the pervasive
`str(d.get(k) or "")` idiom in the provider sources. -/
def orEmptyStr (j : Json) : String :=
  if j.truthy then j.pyStr else ""

/-- The elements of a JSON array (`[]` for non-arrays, matching the guarded
`isinstance(..., list)` loops in the sources). -/
def items : Json → List Json
  | .arr xs => xs
  | _ => []

/-- Whether the value is a JSON object (`isinstance(x, Mapping)`). -/
def isObj : Json → Bool
  | .obj _ => true
  | _ => false

/-- `dict(event)` plus `event["changeType"] = v`: set/override one field. -/
def setField (j : Json) (key : String) (v : Json) : Json :=
  match j with
  | .obj fields => .obj ((key, v) :: fields.filter (fun kv => kv.1 != key))
  | other => other

end Json

/-- The subscription store visible to a dispatcher: an association list from
string keys to string values (the SDK stores bytes; every provider encodes
and decodes UTF-8 strings). Modelled from the spec: the `Subscription Store`
external interface `get/set/delete/exists` of the spec, whose backing class
is not part of the surveyed sources. -/
abbrev Store := List (String × String)

namespace Store

/-- `storage.get(key)` as an option (absent keys yield `none`). -/
def get? (st : Store) (k : String) : Option String :=
  (st.find? (fun kv => kv.1 == k)).map (fun kv => kv.2)

/-- `storage.set(key, value)`. -/
def set (st : Store) (k v : String) : Store :=
  (k, v) :: st.filter (fun kv => kv.1 != k)

/-- `storage.exist(key)`. -/
def exist (st : Store) (k : String) : Bool :=
  (st.get? k).isSome

end Store

/-- Helper for Python's substring operator: does `needle` occur in the
character list? -/
def charsContain (needle : List Char) : List Char → Bool
  | [] => needle.isEmpty
  | c :: rest => needle.isPrefixOf (c :: rest) || charsContain needle rest

/-- Python `needle in haystack` on strings (case-sensitive substring test). -/
def strContainsSub (haystack needle : String) : Bool :=
  charsContain needle.toList haystack.toList

/-- Python `str.lower()` (ASCII case folding, which is all the sources use). -/
def pyLower (s : String) : String :=
  String.mk (s.toList.map Char.toLower)

/-- Drop leading whitespace from a character list. -/
def dropWhitespace : List Char → List Char
  | [] => []
  | c :: rest => if c.isWhitespace then dropWhitespace rest else c :: rest

/-- Python `str.strip()`. -/
def pyStrip (s : String) : String :=
  String.mk ((dropWhitespace ((dropWhitespace s.toList).reverse)).reverse)

/-- Worker for `pySplit`. -/
def pySplitGo (sep : Char) : List Char → List Char → List String
  | [], cur => [String.mk cur.reverse]
  | c :: rest, cur =>
    if c == sep then String.mk cur.reverse :: pySplitGo sep rest []
    else pySplitGo sep rest (c :: cur)

/-- Python `str.split(sep)` for a one-character separator. -/
def pySplit (sep : Char) (s : String) : List String :=
  pySplitGo sep s.toList []

/-- Accumulate decimal digits; `none` on any non-digit. -/
def pyDigits? (cs : List Char) : Option Nat :=
  cs.foldl (fun acc c =>
    match acc with
    | none => none
    | some n => if c.isDigit then some (n * 10 + (c.toNat - 48)) else none) (some 0)

/-- Python `int(s)` for decimal literals: optional surrounding whitespace and
sign, then digits; `none` models the `ValueError`. -/
def pyInt? (s : String) : Option Int :=
  match (pyStrip s).toList with
  | [] => none
  | '-' :: rest =>
    if rest.isEmpty then none else (pyDigits? rest).map (fun n => -(n : Int))
  | '+' :: rest =>
    if rest.isEmpty then none else (pyDigits? rest).map (fun n => (n : Int))
  | cs => (pyDigits? cs).map (fun n => (n : Int))

/-- The HTTP response a dispatcher hands back to the provider
(werkzeug `Response(response=..., status=..., mimetype=...)`). -/
structure HttpResponse where
  body : String
  status : Nat
  mimetype : String
deriving DecidableEq, Repr

/-- Modelled from the spec: `EventDispatch` — the dispatcher's output for one
inbound HTTP call (`events`, `response`, optional `payload`); the entity class
itself lives outside the surveyed sources. -/
structure EventDispatch where
  events : List String
  response : HttpResponse
  payload : Json := .null
  userId : String := ""

/-- Modelled from the spec: `UnsubscribeResult{success, message}` returned by
`delete_subscription`. -/
structure UnsubscribeResult where
  success : Bool
  message : String
deriving DecidableEq, Repr

/-- The exception families raised by the trigger sources
(`TriggerValidationError`, `TriggerDispatchError`, `SubscriptionError`,
`UnsubscribeError` with its machine-readable `error_code`, and the
`EventIgnoreError` used by event projectors), plus an artificial `fuel`
outcome standing for a non-terminating provider paging loop. -/
inductive TriggerErr where
  | validation (msg : String)
  | dispatch (msg : String)
  | subscription (msg : String) (errorCode : String)
  | unsubscribe (msg : String) (errorCode : String)
  | ignore
  | valueError (msg : String)
  | syncTokenExpired
  | fuel
deriving DecidableEq, Repr

/-! ## Slack trigger (`examples/slack_trigger/provider/slack.py`) -/

/-- The parts of a werkzeug `Request` the Slack trigger reads. -/
structure SlackRequest where
  retryNumHeader : Option String
  timestampHeader : Option String
  signatureHeader : Option String
  body : String
deriving DecidableEq, Repr

/-- `SlackTrigger._build_signature`: `"v0" + "=" + hexdigest` of HMAC-SHA256
over `"v0:" + timestamp + ":" + body`; the HMAC itself is an abstract
parameter `mac : key → message → hexdigest`. -/
def slackBuildSignature (mac : String → String → String)
    (signingSecret timestamp body : String) : String :=
  "v0=" ++ mac signingSecret ("v0:" ++ timestamp ++ ":" ++ body)

/-- `SlackTrigger._MAX_SIGNATURE_AGE` (five minutes). -/
def slackMaxSignatureAge : Nat := 60 * 5

/-- `SlackTrigger._parse_request`: timestamp-window check, signature check
(`hmac.compare_digest`, functionally string equality), JSON decoding
(abstract `decode`), and the `url_verification` handshake short-circuit.
`now` is `int(time.time())`. -/
def slackParseRequest (mac : String → String → String)
    (decode : String → Option Json) (now : Int)
    (signingSecret : String) (req : SlackRequest) :
    Except TriggerErr (Json × HttpResponse) :=
  match req.timestampHeader with
  | none => .error (.validation "Missing Slack timestamp header")
  | some tsHeader =>
    match pyInt? tsHeader with
    | none => .error (.validation "Invalid Slack timestamp header")
    | some timestamp =>
      if (now - timestamp).natAbs > slackMaxSignatureAge then
        .error (.validation "Slack request timestamp is outside the allowed tolerance")
      else
        match req.signatureHeader with
        | none => .error (.validation "Missing Slack signature header")
        | some signature =>
          if signature ≠ slackBuildSignature mac signingSecret tsHeader req.body then
            .error (.validation "Invalid Slack signature")
          else
            match decode req.body with
            | none => .error (.dispatch "Failed to decode Slack payload")
            | some payload =>
              if (payload.get "type").isStr "url_verification" then
                match payload.get "challenge" with
                | .str c =>
                  if c == "" then
                    .error (.dispatch "Slack URL verification payload missing challenge")
                  else
                    .ok (payload, ⟨c, 200, "text/plain"⟩)
                | challenge =>
                  if !challenge.truthy then
                    .error (.dispatch "Slack URL verification payload missing challenge")
                  else
                    .error (.dispatch "Slack challenge is not a string")
              else
                .ok (payload, ⟨"{}", 200, "application/json"⟩)

/-- `MESSAGE_CHANNEL_EVENT_KEYS` in `slack.py`. -/
def slackMessageChannelEventKeys : List (String × String) :=
  [("app_home", "message_app_home"), ("channel", "message_channels"),
   ("group", "message_groups"), ("im", "message_im"), ("mpim", "message_mpim")]

/-- `MESSAGE_IGNORED_SUBTYPES` in `slack.py`. -/
def slackMessageIgnoredSubtypes : List String :=
  ["message_changed", "message_deleted", "message_replied",
   "thread_broadcast", "channel_join", "channel_leave"]

/-- `SlackTrigger._determine_event`, parameterised by the keys of
`EVENT_CATALOG` and the derived `EVENT_KEY_BY_TYPE` table (both are data
loaded from the plugin's catalog file). -/
def slackDetermineEvent (catalogKeys : List String)
    (eventKeyByType : List (String × String)) (payload : Json) :
    Except TriggerErr String :=
  if !((payload.get "type").isStr "event_callback") then
    .ok ""
  else
    let event := payload.get "event"
    if !event.isObj then
      .error (.dispatch "Slack payload missing event body")
    else
      let eventType := (event.get "type").orEmptyStr
      if eventType == "message" then
        let subtype := (event.get "subtype").orEmptyStr
        if subtype ≠ "" && slackMessageIgnoredSubtypes.contains subtype then
          .ok ""
        else
          let channelType := (event.get "channel_type").orEmptyStr
          match slackMessageChannelEventKeys.find? (fun kv => kv.1 == channelType) with
          | some kv => .ok (if catalogKeys.contains kv.2 then kv.2 else "")
          | none => .ok (if catalogKeys.contains "message" then "message" else "")
      else
        match eventKeyByType.find? (fun kv => kv.1 == eventType) with
        | some kv => .ok kv.2
        | none => .ok (if catalogKeys.contains eventType then eventType else "")

/-- `SlackTrigger._dispatch_event`. The result also carries the final
subscription store and the list of keys the call read or wrote, so that
frame properties about persisted cursor state can be stated; the Slack
dispatcher never touches the store. -/
def slackDispatchEvent (mac : String → String → String)
    (decode : String → Option Json) (now : Int)
    (catalogKeys : List String) (eventKeyByType : List (String × String))
    (properties : Json) (req : SlackRequest) (st : Store) :
    Except TriggerErr EventDispatch × Store × List String :=
  let result : Except TriggerErr EventDispatch :=
    let signingSecret := (properties.get "signing_secret").orEmptyStr
    if signingSecret == "" then
      .error (.dispatch "Slack signing secret is missing from subscription properties")
    else if (req.retryNumHeader.getD "") ≠ "" then
      .ok { events := [], response := ⟨"{}", 200, "application/json"⟩ }
    else
      match slackParseRequest mac decode now signingSecret req with
      | .error e => .error e
      | .ok (payload, response) =>
        match slackDetermineEvent catalogKeys eventKeyByType payload with
        | .error e => .error e
        | .ok dispatchEvent =>
          let events := if dispatchEvent ≠ "" then [dispatchEvent] else []
          .ok { events := events, response := response }
  (result, st, [])

/-! ## GitHub trigger (`examples/github_trigger/provider/github.py`) -/

/-- The parts of a werkzeug `Request` the GitHub trigger reads. -/
structure GithubRequest where
  signatureHeader : Option String
  eventHeader : Option String
  contentType : String
  formPayload : Option String
  body : String

/-- `GithubTrigger._validate_signature`: `"sha256=" + HMAC-SHA256(secret,
raw_body)` compared by `hmac.compare_digest` (functionally string equality);
`mac` is the abstract HMAC hexdigest. -/
def githubValidateSignature (mac : String → String → String)
    (webhookSecret : String) (req : GithubRequest) : Except TriggerErr Unit :=
  match req.signatureHeader with
  | none => .error (.validation "Missing webhook signature")
  | some signature =>
    if signature == "" then
      .error (.validation "Missing webhook signature")
    else if signature ≠ "sha256=" ++ mac webhookSecret req.body then
      .error (.validation "Invalid webhook signature")
    else
      .ok ()

/-- `GithubTrigger._dispatch_trigger_events`: the deterministic
`(event_type, action)` to logical-event-name table. -/
def githubDispatchTriggerEvents (eventType : String) (payload : Json) :
    Except TriggerErr (List String) :=
  let eventType := pyLower eventType
  let action := payload.get "action"
  if ["issues", "issue_comment", "pull_request"].contains eventType then
    .ok [eventType]
  else if ["pull_request_review", "pull_request_review_comment", "check_suite",
      "check_run", "workflow_run", "workflow_job"].contains eventType then
    .ok [eventType]
  else if ["deployment_status", "release"].contains eventType then
    if !action.truthy then
      .error (.dispatch ("GitHub event '" ++ eventType ++ "' missing action in payload"))
    else
      .ok [eventType ++ "_" ++ action.pyStr]
  else if eventType == "push" then
    .ok ["push"]
  else if eventType == "star" then
    .ok ["star"]
  else if eventType == "code_scanning_alert" then
    .ok ["code_scanning_alert"]
  else if ["secret_scanning_alert", "secret_scanning_alert_location",
      "secret_scanning_scan"].contains eventType then
    .ok ["secret_scanning"]
  else if ["create", "delete"].contains eventType then
    .ok ["ref_change"]
  else if eventType == "commit_comment" then
    .ok ["commit_comment"]
  else if eventType == "status" then
    .ok ["status"]
  else if eventType == "deployment" then
    .ok ["deployment"]
  else if eventType == "dependabot_alert" then
    .ok ["dependabot_alert"]
  else if eventType == "repository_vulnerability_alert" then
    .ok ["repository_vulnerability_alert"]
  else if ["branch_protection_configuration", "branch_protection_rule"].contains eventType then
    .ok [eventType]
  else if eventType == "repository_ruleset" then
    .ok ["repository_ruleset"]
  else if ["discussion", "discussion_comment", "fork", "gollum", "issue_dependencies",
      "sub_issues", "label", "member", "merge_group", "meta", "milestone",
      "package", "registry_package", "page_build", "ping", "project",
      "project_column", "project_card", "public", "pull_request_review_thread",
      "repository", "repository_import", "repository_advisory",
      "security_and_analysis", "custom_property_values", "deploy_key",
      "watch"].contains eventType then
    .ok [eventType]
  else
    .ok []

/-- `GithubTrigger._validate_payload`: form-encoded `payload` field or JSON
body (the JSON decoder is the abstract `decode`); empty payloads rejected. -/
def githubValidatePayload (decode : String → Option Json) (req : GithubRequest) :
    Except TriggerErr Json :=
  if strContainsSub req.contentType "application/x-www-form-urlencoded" then
    match req.formPayload with
    | none => .error (.dispatch "Missing payload in form data")
    | some formData =>
      if formData == "" then
        .error (.dispatch "Missing payload in form data")
      else
        match decode formData with
        | none => .error (.dispatch "Failed to parse payload")
        | some payload =>
          if !payload.truthy then .error (.dispatch "Empty request body")
          else .ok payload
  else
    match decode req.body with
    | none => .error (.dispatch "Failed to parse payload")
    | some payload =>
      if !payload.truthy then .error (.dispatch "Empty request body")
      else .ok payload

/-- `GithubTrigger._dispatch_event`: optional signature validation (only when
`webhook_secret` is a non-empty subscription property), event-type header
requirement, payload parsing and logical event resolution. -/
def githubDispatchEvent (mac : String → String → String)
    (decode : String → Option Json) (properties : Json) (req : GithubRequest) :
    Except TriggerErr EventDispatch :=
  let webhookSecret := properties.get "webhook_secret"
  let validated : Except TriggerErr Unit :=
    if webhookSecret.truthy then githubValidateSignature mac webhookSecret.pyStr req
    else .ok ()
  match validated with
  | .error e => .error e
  | .ok () =>
    let eventType := req.eventHeader.getD ""
    if eventType == "" then
      .error (.dispatch "Missing GitHub event type header")
    else
      match githubValidatePayload decode req with
      | .error e => .error e
      | .ok payload =>
        let sender := payload.get "sender"
        let userId :=
          match sender.get "id" with
          | .null => "unknown"
          | v => v.pyStr
        let response : HttpResponse := ⟨"\x7b\"status\": \"ok\"\x7d", 200, "application/json"⟩
        match githubDispatchTriggerEvents eventType payload with
        | .error e => .error e
        | .ok events =>
          .ok { userId := userId, events := events, response := response }

/-- One provider HTTP response as seen by the lifecycle code: status plus
decoded JSON body. -/
structure ProviderResp where
  status : Nat
  body : Json

/-- `GithubSubscriptionConstructor._delete_subscription`: 204 is success, 404
raises `UnsubscribeError(WEBHOOK_NOT_FOUND)`, anything else raises
`UnsubscribeError(WEBHOOK_DELETION_FAILED)`. `deleteResp` is the provider's
response to the webhook DELETE call. -/
def githubDeleteSubscription (properties : Json) (deleteResp : ProviderResp) :
    Except TriggerErr UnsubscribeResult :=
  let externalId := properties.get "external_id"
  let repository := properties.get "repository"
  if !externalId.truthy || !repository.truthy then
    .error (.unsubscribe "Missing webhook ID or repository information" "MISSING_PROPERTIES")
  else if (pySplit '/' repository.pyStr).length ≠ 2 then
    .error (.unsubscribe "Invalid repository format in properties" "INVALID_REPOSITORY")
  else if deleteResp.status == 204 then
    .ok ⟨true, "Successfully removed webhook " ++ externalId.pyStr
      ++ " from " ++ repository.pyStr⟩
  else if deleteResp.status == 404 then
    .error (.unsubscribe ("Webhook " ++ externalId.pyStr ++ " not found in repository "
      ++ repository.pyStr) "WEBHOOK_NOT_FOUND")
  else
    .error (.unsubscribe "Failed to delete webhook" "WEBHOOK_DELETION_FAILED")

/-! ## Gmail trigger (`examples/gmail_trigger/provider/gmail_trigger.py`) -/

/-- One page of the Gmail `users.history.list` API as consumed by
`_fetch_history_delta`: HTTP status, the `history` array, `nextPageToken`. -/
structure GmailHistPage where
  status : Nat
  history : List Json
  nextPageToken : Option String

/-- The categorized changes accumulated by `_fetch_history_delta`. -/
structure GmailDelta where
  added : List Json
  deleted : List Json
  labelsAdded : List Json
  labelsRemoved : List Json

/-- `messages = added + deleted` (extended at the end of the fetch). -/
def GmailDelta.messages (d : GmailDelta) : List Json :=
  d.added ++ d.deleted

/-- One `messagesAdded`/`messagesDeleted` item: kept iff `message.id` is
truthy, projected to `{id, threadId}`. -/
def gmailMsgRef (item : Json) : Option Json :=
  let msg := item.get "message"
  if (msg.get "id").truthy then
    some (.obj [("id", msg.get "id"), ("threadId", msg.get "threadId")])
  else none

/-- One `labelsAdded`/`labelsRemoved` item: kept iff `message.id` is truthy,
projected to `{id, threadId, labelIds}` with `labelIds or []`. -/
def gmailLabelRef (item : Json) : Option Json :=
  let msg := item.get "message"
  if (msg.get "id").truthy then
    some (.obj [("id", msg.get "id"), ("threadId", msg.get "threadId"),
      ("labelIds", if (item.get "labelIds").truthy then item.get "labelIds" else .arr [])])
  else none

/-- The four per-record extractions of `_fetch_history_delta`'s inner loop. -/
def gmailExtractHistory (h : Json) :
    List Json × List Json × List Json × List Json :=
  ((h.get "messagesAdded").items.filterMap gmailMsgRef,
   (h.get "messagesDeleted").items.filterMap gmailMsgRef,
   (h.get "labelsAdded").items.filterMap gmailLabelRef,
   (h.get "labelsRemoved").items.filterMap gmailLabelRef)

/-- Fold one history page into the accumulated delta. -/
def gmailAccumPage (acc : GmailDelta) (history : List Json) : GmailDelta :=
  history.foldl (fun a h =>
    let (ad, de, la, lr) := gmailExtractHistory h
    ⟨a.added ++ ad, a.deleted ++ de, a.labelsAdded ++ la, a.labelsRemoved ++ lr⟩) acc

/-- `GmailTrigger._fetch_history_delta`: page through `users.history.list`
until no `nextPageToken`; a non-200 response at any page swallows the whole
batch and yields empty changes. `provider` maps `(startHistoryId, pageToken)`
to a page; `fuel` bounds the unbounded `while True` loop (`.fuel` stands for
a provider that never stops paging). -/
def gmailFetchHistoryDelta (provider : String → Option String → GmailHistPage)
    (startHistoryId : String) :
    Nat → Option String → GmailDelta → Except TriggerErr GmailDelta
  | 0, _, _ => .error .fuel
  | fuel + 1, pageToken, acc =>
    let page := provider startHistoryId pageToken
    if page.status ≠ 200 then
      .ok ⟨[], [], [], []⟩
    else
      let acc := gmailAccumPage acc page.history
      match page.nextPageToken with
      | some tok =>
        if tok ≠ "" then gmailFetchHistoryDelta provider startHistoryId fuel (some tok) acc
        else .ok acc
      | none => .ok acc

/-- The Gmail push notification decoded from the Pub/Sub envelope
(`_parse_pubsub_push` guarantees both fields are truthy). -/
structure GmailNotification where
  historyId : Json
  emailAddress : Json

/-- Gmail `_ok()` response. -/
def gmailOk : HttpResponse :=
  ⟨"\x7b\"status\": \"ok\"\x7d", 200, "application/json"⟩

/-- Gmail `_value_error(message)` response. -/
def gmailValueError (msg : String) : HttpResponse :=
  ⟨"\x7b\"status\": \"value_error\", \"message\": \"" ++ msg ++ "\"\x7d", 400, "application/json"⟩

/-- The storage key `f"gmail:{sub_key}:history_checkpoint"`. -/
def gmailCheckpointKey (properties : Json) : String :=
  "gmail:" ++ (properties.get "subscription_key").orEmptyStr ++ ":history_checkpoint"

/-- `GmailTrigger._dispatch_event`. `oidc` is the outcome of
`_verify_oidc_token` (consulted only when `require_oidc` is truthy), `parsed`
the outcome of `_parse_pubsub_push`, `accessToken` the runtime OAuth access
token (`none` for absent or empty), `provider` the Gmail history API and
`fuel` the paging bound. Returns the dispatch outcome and the updated
subscription store. -/
def gmailDispatchEvent (provider : String → Option String → GmailHistPage)
    (fuel : Nat) (oidc : Except TriggerErr Unit)
    (parsed : Except TriggerErr GmailNotification)
    (accessToken : Option String) (properties : Json) (st : Store) :
    Except TriggerErr EventDispatch × Store :=
  match (if (properties.get "require_oidc").truthy then oidc else .ok ()) with
  | .error e => (.error e, st)
  | .ok () =>
  match parsed with
  | .error e => (.error e, st)
  | .ok notification =>
  match accessToken with
  | none => (.ok { events := [], response := gmailValueError "Missing access token for Gmail API" }, st)
  | some _ =>
  let checkpointKey := gmailCheckpointKey properties
  let hid := notification.historyId.pyStr
  if !(st.exist checkpointKey) then
    (.ok { events := [], response := gmailOk }, st.set checkpointKey hid)
  else
    let startHistoryId := (st.get? checkpointKey).getD ""
    match gmailFetchHistoryDelta provider startHistoryId fuel none ⟨[], [], [], []⟩ with
    | .error e => (.error e, st)
    | .ok delta =>
      let st' := st.set checkpointKey hid
      let events :=
        (if !delta.added.isEmpty then ["gmail_message_added"] else [])
        ++ (if !delta.deleted.isEmpty then ["gmail_message_deleted"] else [])
        ++ (if !delta.labelsAdded.isEmpty then ["gmail_label_added"] else [])
        ++ (if !delta.labelsRemoved.isEmpty then ["gmail_label_removed"] else [])
      let payload : Json := .obj [("historyId", .str hid),
        ("messages", .arr delta.messages),
        ("message_added", .arr delta.added),
        ("message_deleted", .arr delta.deleted),
        ("label_added", .arr delta.labelsAdded),
        ("label_removed", .arr delta.labelsRemoved)]
      (.ok { events := events, response := gmailOk, payload := payload }, st')

/-! ## Google Calendar trigger
(`examples/google_calendar_trigger/provider/google_calendar_trigger.py`) -/

/-- `_to_bool` in `google_calendar_trigger.py`. -/
def gcalToBool (v : Json) (default : Bool) : Bool :=
  match v with
  | .null => default
  | .bool b => b
  | .num n => n != 0
  | .str s =>
    let normalized := pyLower (pyStrip s)
    if ["true", "1", "yes", "on"].contains normalized then true
    else if ["false", "0", "no", "off"].contains normalized then false
    else default
  | _ => default

/-- One page of the Calendar `events.list` incremental API: HTTP status,
`items`, `nextPageToken`, `nextSyncToken`. -/
structure CalPage where
  status : Nat
  items : List Json
  nextPageToken : Option String
  nextSyncToken : Option String

/-- `GoogleCalendarTrigger._fetch_events_delta`: page through the delta,
raising `SyncTokenExpiredError` on HTTP 410; returns the collected mapping
items and `next_sync_token or sync_token`. `provider` maps
`(syncToken, pageToken)` to a page, `fuel` bounds the `while True` loop. -/
def gcalFetchEventsDelta (provider : String → Option String → CalPage)
    (syncToken : String) :
    Nat → Option String → List Json → Except TriggerErr (List Json × String)
  | 0, _, _ => .error .fuel
  | fuel + 1, pageToken, acc =>
    let page := provider syncToken pageToken
    if page.status == 410 then
      .error .syncTokenExpired
    else if page.status ≠ 200 then
      .error (.dispatch "Failed to fetch calendar delta")
    else
      let acc := acc ++ page.items.filter Json.isObj
      match page.nextPageToken with
      | some tok =>
        if tok ≠ "" then gcalFetchEventsDelta provider syncToken fuel (some tok) acc
        else
          let nst := match page.nextSyncToken with
            | some s => if s ≠ "" then s else syncToken
            | none => syncToken
          .ok (acc, nst)
      | none =>
        let nst := match page.nextSyncToken with
          | some s => if s ≠ "" then s else syncToken
          | none => syncToken
        .ok (acc, nst)

/-- Calendar `_ok()` response. -/
def gcalOk : HttpResponse :=
  ⟨"\x7b\"status\": \"ok\"\x7d", 200, "application/json"⟩

/-- Calendar `_value_error(message)` response. -/
def gcalValueError (msg : String) : HttpResponse :=
  ⟨"\x7b\"status\": \"value_error\", \"message\": \"" ++ msg ++ "\"\x7d", 400, "application/json"⟩

/-- The storage key `f"gcal:{subscription_key}:sync_token"`. -/
def gcalSyncKey (properties : Json) : String :=
  "gcal:" ++ (properties.get "subscription_key").orEmptyStr ++ ":sync_token"

/-- The `X-Goog-*` headers the Calendar dispatcher reads. -/
structure CalRequest where
  channelIdHeader : Option String
  channelTokenHeader : Option String
  resourceStateHeader : Option String
  resourceIdHeader : Option String

/-- The created/updated/deleted partition loop of
`GoogleCalendarTrigger._dispatch_event` (lines 228-254); `isRecent` abstracts
`_is_recent_creation` (sequence-number and created/updated timestamp
comparison). -/
def gcalClassify (isRecent : Json → Bool) (includeCancelled : Bool)
    (items : List Json) : List Json × List Json × List Json :=
  items.foldl (fun acc raw =>
    if !raw.isObj then acc
    else
      let status := pyLower (raw.get "status").orEmptyStr
      let changeType :=
        if status == "cancelled" then "deleted"
        else if isRecent raw then "created"
        else "updated"
      let event := raw.setField "changeType" (.str changeType)
      if changeType == "deleted" then
        (if includeCancelled then (acc.1, acc.2.1, acc.2.2 ++ [event]) else acc)
      else if changeType == "created" then (acc.1 ++ [event], acc.2.1, acc.2.2)
      else (acc.1, acc.2.1 ++ [event], acc.2.2))
    ([], [], [])

/-- The delta-fetching tail of `GoogleCalendarTrigger._dispatch_event`
(lines 209-279), entered once a sync token is at hand: `"sync"` handshake
short-circuit, delta fetch, 410 recovery via `bootstrapToken`, sync-token
persistence and payload assembly. -/
def gcalDispatchFetch (provider : String → Option String → CalPage)
    (bootstrapToken : Except TriggerErr String) (isRecent : Json → Bool)
    (fuel : Nat) (syncKey syncToken calendarId resourceState resourceId channelId : String)
    (includeCancelled : Bool) (st : Store) :
    Except TriggerErr EventDispatch × Store :=
  if resourceState == "sync" then
    (.ok { events := [], response := gcalOk }, st)
  else
    match gcalFetchEventsDelta provider syncToken fuel none [] with
    | .error .syncTokenExpired =>
      match bootstrapToken with
      | .error e => (.error e, st)
      | .ok fresh =>
        (.ok { events := [], response := gcalOk },
         if fresh ≠ "" then st.set syncKey fresh else st)
    | .error e => (.error e, st)
    | .ok (items, nextSyncToken) =>
      let st' := if nextSyncToken ≠ "" then st.set syncKey nextSyncToken else st
      let (created, updated, deleted) := gcalClassify isRecent includeCancelled items
      let events :=
        (if !created.isEmpty then ["google_calendar_event_created"] else [])
        ++ (if !updated.isEmpty then ["google_calendar_event_updated"] else [])
        ++ (if !deleted.isEmpty then ["google_calendar_event_deleted"] else [])
      let base := [("calendarId", Json.str calendarId),
        ("resourceState", Json.str resourceState),
        ("resourceId", Json.str resourceId),
        ("channelId", Json.str channelId),
        ("events", Json.arr items),
        ("created", Json.arr created),
        ("updated", Json.arr updated),
        ("deleted", Json.arr deleted)]
      let withSync := if nextSyncToken ≠ "" then base ++ [("nextSyncToken", Json.str nextSyncToken)] else base
      let withCancelled := if includeCancelled then withSync ++ [("includeCancelled", Json.bool true)] else withSync
      (.ok { events := events, response := gcalOk, payload := .obj withCancelled }, st')

/-- `GoogleCalendarTrigger._dispatch_event`: channel-id/token validation,
sync-token initialisation (stored token, `initial_sync_token` property, or
bootstrap), then the delta fetch tail. -/
def gcalDispatchEvent (provider : String → Option String → CalPage)
    (bootstrapToken : Except TriggerErr String) (isRecent : Json → Bool)
    (fuel : Nat) (properties parameters : Json) (accessToken : Option String)
    (req : CalRequest) (st : Store) :
    Except TriggerErr EventDispatch × Store :=
  let expectedChannelId := properties.get "channel_id"
  let expectedToken := properties.get "channel_token"
  let channelId := pyStrip (req.channelIdHeader.getD "")
  let channelToken := pyStrip (req.channelTokenHeader.getD "")
  if expectedChannelId.truthy && channelId ≠ expectedChannelId.pyStr then
    (.error (.validation "Channel ID mismatch for Google Calendar notification"), st)
  else if expectedToken.truthy && channelToken ≠ expectedToken.pyStr then
    (.error (.validation "Channel token verification failed"), st)
  else
    let resourceState := pyLower (pyStrip (req.resourceStateHeader.getD ""))
    let resourceId := pyStrip (req.resourceIdHeader.getD "")
    let calendarId :=
      if (properties.get "calendar_id").truthy then (properties.get "calendar_id").pyStr
      else if (parameters.get "calendar_id").truthy then (parameters.get "calendar_id").pyStr
      else "primary"
    let includeCancelled := gcalToBool (parameters.get "include_cancelled") true
    match accessToken with
    | none =>
      (.ok { events := [], response := gcalValueError "Missing access token for Google Calendar API" }, st)
    | some _ =>
      let syncKey := gcalSyncKey properties
      if st.exist syncKey then
        let syncToken := (st.get? syncKey).getD ""
        gcalDispatchFetch provider bootstrapToken isRecent fuel syncKey syncToken
          calendarId resourceState resourceId channelId includeCancelled st
      else if (properties.get "initial_sync_token").truthy then
        let syncToken := (properties.get "initial_sync_token").pyStr
        let st := st.set syncKey syncToken
        gcalDispatchFetch provider bootstrapToken isRecent fuel syncKey syncToken
          calendarId resourceState resourceId channelId includeCancelled st
      else
        match bootstrapToken with
        | .error e => (.error e, st)
        | .ok tok =>
          (.ok { events := [], response := gcalOk }, st.set syncKey tok)

/-- `GoogleCalendarSubscriptionConstructor._stop_channel`: `false` without
channel metadata or on network error, otherwise success iff the
`channels/stop` call returns 200 or 204 (`stopStatus`; a network error is
any other value). -/
def gcalStopChannel (properties : Json) (stopStatus : Nat) : Bool :=
  if !(properties.get "channel_id").truthy || !(properties.get "resource_id").truthy then
    false
  else
    stopStatus == 200 || stopStatus == 204

/-- `GoogleCalendarSubscriptionConstructor._delete_subscription`: never
raises; reports `success=false` when the stop call does not answer 200/204
(including a provider 404 for an already-deleted channel). -/
def gcalDeleteSubscription (accessToken : Option String) (properties : Json)
    (stopStatus : Nat) : UnsubscribeResult :=
  match accessToken with
  | none => ⟨false, "Missing access_token for Google Calendar API"⟩
  | some _ =>
    if gcalStopChannel properties stopStatus then
      ⟨true, "Google Calendar channel stopped"⟩
    else
      ⟨false, "Failed to stop Google Calendar channel"⟩

/-! ## Dropbox trigger (`examples/dropbox_trigger/provider/dropbox.py`) -/

/-- Failure behaviour of the external subscription-store backend: which
`set`/`get` calls raise. The Dropbox and Google Drive dispatchers wrap their
store accesses in `contextlib.suppress(Exception)` / `try ... except`. -/
structure StoreFaults where
  setFails : String → String → Bool
  getFails : String → Bool

/-- A store backend that never raises. -/
def noFaults : StoreFaults := ⟨fun _ _ => false, fun _ => false⟩

/-- The raw `storage.set` call, which may raise (`.error ()`). -/
def faultySet (f : StoreFaults) (st : Store) (k v : String) : Except Unit Store :=
  if f.setFails k v then .error () else .ok (st.set k v)

/-- `DropboxTrigger._set_storage`: `storage.set` under
`contextlib.suppress(Exception)` — a raising backend leaves the store as it
was and the call returns normally. -/
def dropboxSetStorage (f : StoreFaults) (st : Store) (k v : String) : Store :=
  match faultySet f st k v with
  | .ok st' => st'
  | .error _ => st

/-- `DropboxTrigger._get_storage`: `storage.get(key)` with every exception
(including a missing key) collapsed to `""`. -/
def dropboxGetStorage (f : StoreFaults) (st : Store) (k : String) : String :=
  if f.getFails k then "" else (st.get? k).getD ""

/-- The parts of a werkzeug `Request` the Dropbox trigger reads. -/
structure DropboxRequest where
  method : String
  challengeArg : Option String
  signatureHeader : Option String
  body : String
  requestIdHeader : Option String

/-- One response of `files/list_folder/continue`: HTTP status, `entries`,
`cursor`, `has_more`. -/
structure DbxPage where
  status : Nat
  entries : List Json
  cursor : Json
  hasMore : Bool

/-- `DropboxTrigger._ok_response()`. -/
def dbxOkResponse : HttpResponse :=
  ⟨"\x7b\"status\": \"ok\"\x7d", 200, "application/json"⟩

/-- `DropboxTrigger._list_folder_continue`: non-200 raises, entries keep only
mappings, the new cursor is `str(data.get("cursor") or cursor)`. -/
def dbxListFolderContinue (provider : String → DbxPage) (cursor : String) :
    Except TriggerErr (List Json × String × Bool) :=
  let page := provider cursor
  if page.status ≠ 200 then
    .error (.dispatch "Dropbox list_folder/continue error")
  else
    .ok (page.entries.filter Json.isObj,
      (if page.cursor.truthy then page.cursor.pyStr else cursor), page.hasMore)

/-- `DropboxTrigger._format_entries` for one entry. -/
def dbxFormatEntry (e : Json) : Json :=
  let t0 := e.get ".tag"
  let tag := pyLower (if t0.truthy then t0 else e.get "tag").orEmptyStr
  let action := if tag == "deleted" then "deleted" else "upsert"
  .obj [("action", .str action), ("tag", .str tag), ("id", e.get "id"),
    ("name", e.get "name"), ("path_display", .str (e.get "path_display").orEmptyStr),
    ("path_lower", .str (e.get "path_lower").orEmptyStr),
    ("server_modified", e.get "server_modified"),
    ("client_modified", e.get "client_modified"), ("rev", e.get "rev"),
    ("size", e.get "size"), ("content_hash", e.get "content_hash")]

/-- `DropboxTrigger._MAX_PAGES`. -/
def dropboxMaxPages : Nat := 10

/-- The `for _ in range(self._MAX_PAGES)` paging loop of
`DropboxTrigger._dispatch_event` (lines 84-93): at most `remaining` calls to
`files/list_folder/continue`, stopping early when `has_more` is false, and
returning the collected formatted changes together with the cursor after the
last fetched page. -/
def dbxFetchLoop (provider : String → DbxPage) :
    Nat → String → List Json → Except TriggerErr (List Json × String)
  | 0, cursor, acc => .ok (acc, cursor)
  | remaining + 1, cursor, acc =>
    match dbxListFolderContinue provider cursor with
    | .error e => .error e
    | .ok (page, cursor', hasMore) =>
      let acc := acc ++ page.map dbxFormatEntry
      if hasMore then dbxFetchLoop provider remaining cursor' acc
      else .ok (acc, cursor')

/-- `DropboxTrigger._dispatch_event`. `mac` abstracts the HMAC-SHA256
hexdigest, `decode` the JSON decoder, `tokenHash` the sha256-prefix token
hash of `_token_hash`, `latestCursor` the outcome of `_get_latest_cursor`,
`provider` the `list_folder/continue` API, `now` is `int(time.time())` and
`faults` the store backend's failure behaviour. -/
def dropboxDispatchEvent (mac : String → String → String)
    (decode : String → Option Json) (tokenHash : String → String)
    (latestCursor : Except TriggerErr String) (provider : String → DbxPage)
    (now : Int) (faults : StoreFaults) (properties : Json)
    (req : DropboxRequest) (st : Store) :
    Except TriggerErr EventDispatch × Store :=
  if req.method == "GET" then
    match req.challengeArg with
    | some c =>
      if c ≠ "" then (.ok { events := [], response := ⟨c, 200, "text/plain"⟩ }, st)
      else (.ok { events := [], response := dbxOkResponse }, st)
    | none => (.ok { events := [], response := dbxOkResponse }, st)
  else if req.method ≠ "POST" then
    (.ok { events := [], response := dbxOkResponse }, st)
  else
    let appSecret := (properties.get "app_secret").orEmptyStr
    if appSecret == "" then
      (.error (.dispatch "Dropbox App Secret missing from subscription properties"), st)
    else
      match req.signatureHeader with
      | none => (.error (.validation "Missing X-Dropbox-Signature header"), st)
      | some signature =>
        if signature ≠ mac appSecret req.body then
          (.error (.validation "Invalid Dropbox webhook signature"), st)
        else
          let payload? : Except TriggerErr Json :=
            if req.body == "" then .ok (.obj [])
            else match decode req.body with
              | some p => .ok p
              | none => .error (.dispatch "Invalid JSON payload for Dropbox webhook")
          match payload? with
          | .error e => (.error e, st)
          | .ok payload =>
            let notifiedAccounts := (payload.get "list_folder").get "accounts"
            let accessToken := (properties.get "access_token").orEmptyStr
            let mkPayload (cursorBefore cursorAfter : String) (changes : List Json) : Json :=
              .obj [("accounts", notifiedAccounts),
                ("cursor_before", .str cursorBefore),
                ("cursor_after", .str cursorAfter),
                ("changes", .arr changes), ("raw", payload),
                ("headers", .obj [("x_dropbox_request_id",
                  match req.requestIdHeader with
                  | some v => .str v
                  | none => .null)]),
                ("received_at", .num now)]
            if accessToken == "" then
              (.ok { events := ["file_changes"], response := dbxOkResponse,
                     payload := mkPayload "" "" [] }, st)
            else
              let storageKey := "dropbox:last-cursor:" ++ tokenHash accessToken
              let cursorBefore := dropboxGetStorage faults st storageKey
              if cursorBefore == "" then
                match latestCursor with
                | .error e => (.error e, st)
                | .ok c =>
                  (.ok { events := [], response := dbxOkResponse, payload := .obj [] },
                   dropboxSetStorage faults st storageKey c)
              else
                match dbxFetchLoop provider dropboxMaxPages cursorBefore [] with
                | .error e => (.error e, st)
                | .ok (changes, cursorAfter) =>
                  (.ok { events := ["file_changes"], response := dbxOkResponse,
                         payload := mkPayload cursorBefore cursorAfter changes },
                   dropboxSetStorage faults st storageKey cursorAfter)

/-! ## Google Drive trigger (`examples/google_drive_trigger/provider/google_drive.py`) -/

/-- `GoogleDriveTrigger._STORAGE_KEY`. -/
def driveStorageKey : String := "google-drive-trigger:last-page-token"

/-- Python `x or default` rendered as a string. -/
def Json.pyOr (j : Json) (d : String) : String :=
  if j.truthy then j.pyStr else d

/-- One response of the Drive `changes` API: status, `changes`,
`nextPageToken`, `newStartPageToken`. -/
structure DrivePage where
  status : Nat
  changes : List Json
  nextPageToken : Option String
  newStartPageToken : Option String

/-- `GoogleDriveTrigger._get_max_page_token`: the stored token (`"0"` when it
decodes to the empty string), falling back to
`properties.get("start_page_token") or "0"` when the store raises — a
missing key also raises in the SDK's storage client. -/
def driveGetMaxPageToken (f : StoreFaults) (st : Store) (properties : Json) : String :=
  if f.getFails driveStorageKey then
    (properties.get "start_page_token").pyOr "0"
  else
    match st.get? driveStorageKey with
    | some v => if v == "" then "0" else v
    | none => (properties.get "start_page_token").pyOr "0"

/-- `GoogleDriveTrigger._set_max_page_token`: `storage.set` under
`contextlib.suppress(Exception)`. -/
def driveSetMaxPageToken (f : StoreFaults) (st : Store) (token : String) : Store :=
  match faultySet f st driveStorageKey token with
  | .ok st' => st'
  | .error _ => st

/-- `GoogleDriveTrigger._fetch_changes`: the `while True` loop re-reading the
persisted page token each iteration, breaking when the freshly read token
equals the response's `nextPageToken` (duplicate detection), collecting
mapping changes, persisting `nextPageToken` and breaking once
`newStartPageToken` arrives. `provider` maps the page token to a response;
`fuel` bounds the loop. -/
def driveFetchChanges (provider : String → DrivePage) (f : StoreFaults)
    (properties : Json) :
    Nat → Store → List Json → Except TriggerErr (List Json × Store)
  | 0, _, _ => .error .fuel
  | fuel + 1, st, acc =>
    let pageToken := driveGetMaxPageToken f st properties
    let page := provider pageToken
    if page.status ≠ 200 then
      .error (.valueError "Google Drive changes API error")
    else
      let current := driveGetMaxPageToken f st properties
      if (match page.nextPageToken with
          | some t => t == current
          | none => false) then
        .ok (acc, st)
      else
        let acc := acc ++ page.changes.filter Json.isObj
        let st := match page.nextPageToken with
          | some t => if t ≠ "" then driveSetMaxPageToken f st t else st
          | none => st
        match page.newStartPageToken with
        | some t =>
          if t ≠ "" then .ok (acc, driveSetMaxPageToken f st t)
          else driveFetchChanges provider f properties fuel st acc
        | none => driveFetchChanges provider f properties fuel st acc

/-! ## GitHub issues event projector
(`examples/github_trigger/events/issues/issues.py` and
`examples/github_trigger/events/utils/issues.py`) -/

/-- Python scalar equality as used by `in` membership checks on filter
lists (string/number/bool literals; containers never appear in filters). -/
def Json.scalarEq : Json → Json → Bool
  | .null, .null => true
  | .bool a, .bool b => a == b
  | .num a, .num b => a == b
  | .str a, .str b => a == b
  | _, _ => false

/-- `_normalize_list` in `events/utils/issues.py`: `None` becomes `[]`, a
list keeps its stripped non-empty members, anything else is `str(...)` split
on commas; optionally lowercased. -/
def normalizeList (raw : Json) (lowercase : Bool) : List String :=
  let values :=
    match raw with
    | .null => []
    | .arr xs => (xs.map (fun x => pyStrip x.pyStr)).filter (fun s => s ≠ "")
    | other => (((pySplit ',' other.pyStr).map pyStrip).filter (fun s => s ≠ ""))
  if lowercase then values.map pyLower else values

/-- `check_labels`: empty filter passes; otherwise some configured label must
equal some `issue.labels[*].name`. -/
def checkLabels (issue : Json) (value : Json) : Except TriggerErr Unit :=
  let labels := normalizeList value false
  if labels.isEmpty then .ok ()
  else
    let current := (issue.get "labels").items.map (fun lbl => lbl.get "name")
    if labels.any (fun l => current.any (fun c => c.isStr l)) then .ok ()
    else .error .ignore

/-- `check_assignee`: empty filter passes; otherwise some configured login
must be among `issue.assignees[*].login` plus `issue.assignee.login`. -/
def checkAssignee (issue : Json) (value : Json) : Except TriggerErr Unit :=
  let assignees := normalizeList value false
  if assignees.isEmpty then .ok ()
  else
    let assigned := (issue.get "assignees").items.map (fun a => a.get "login")
    let login := (issue.get "assignee").get "login"
    let assigned := if login.truthy then assigned ++ [login] else assigned
    if assigned.isEmpty then .error .ignore
    else if assignees.any (fun a => assigned.any (fun l => l.isStr a)) then .ok ()
    else .error .ignore

/-- `check_authors`: empty filter passes; otherwise `issue.user.login` must
be one of the configured authors. -/
def checkAuthors (issue : Json) (value : Json) : Except TriggerErr Unit :=
  let authors := normalizeList value false
  if authors.isEmpty then .ok ()
  else
    let login := (issue.get "user").get "login"
    if authors.any (fun a => login.isStr a) then .ok () else .error .ignore

/-- `check_milestone`: empty filter passes; otherwise `issue.milestone.title`
must be one of the configured milestones. -/
def checkMilestone (issue : Json) (value : Json) : Except TriggerErr Unit :=
  let milestones := normalizeList value false
  if milestones.isEmpty then .ok ()
  else
    let title := (issue.get "milestone").get "title"
    if milestones.any (fun m => title.isStr m) then .ok () else .error .ignore

/-- `check_title_contains`: keywords are lowercased; some keyword must occur
in the lowercased title. -/
def checkTitleContains (issue : Json) (value : Json) : Except TriggerErr Unit :=
  let keywords := normalizeList value true
  if keywords.isEmpty then .ok ()
  else
    let title := pyLower (issue.get "title").orEmptyStr
    if keywords.any (fun k => strContainsSub title k) then .ok () else .error .ignore

/-- `check_body_contains`: like `check_title_contains` over the body. -/
def checkBodyContains (issue : Json) (value : Json) : Except TriggerErr Unit :=
  let keywords := normalizeList value true
  if keywords.isEmpty then .ok ()
  else
    let body := pyLower (issue.get "body").orEmptyStr
    if keywords.any (fun k => strContainsSub body k) then .ok () else .error .ignore

/-- `check_state`: a falsy filter passes; otherwise the lowercased state must
be in the comma-separated, lowercased target set. -/
def checkState (issue : Json) (value : Json) : Except TriggerErr Unit :=
  if !value.truthy then .ok ()
  else
    let state := pyLower (issue.get "state").orEmptyStr
    let targets := ((((pySplit ',' value.pyStr).map pyStrip).filter
      (fun s => s ≠ "")).map pyLower)
    if !targets.isEmpty && !targets.contains state then .error .ignore else .ok ()

/-- `IssuesUnifiedEvent._on_event`: the projector reads the request's JSON
body (`requestJson`, `none` when unparsable), applies the `actions` filter,
requires a mapping `issue`, runs the seven utility filters in order (each
raising `EventIgnoreError` on first failure) and finally projects
`Variables(variables={**payload})` — here the payload itself. -/
def issuesOnEvent (requestJson : Option Json) (parameters : Json) :
    Except TriggerErr Json :=
  match requestJson with
  | none => .error (.valueError "No payload received")
  | some payload =>
    if !payload.truthy then
      .error (.valueError "No payload received")
    else
      let allowedActions := parameters.get "actions"
      let action := payload.get "action"
      if allowedActions.truthy && !(allowedActions.items.any (fun a => a.scalarEq action)) then
        .error .ignore
      else
        let issue := payload.get "issue"
        if !issue.isObj then
          .error (.valueError "No issue in payload")
        else
          match checkLabels issue (parameters.get "labels") with
          | .error e => .error e
          | .ok () =>
          match checkAssignee issue (parameters.get "assignee") with
          | .error e => .error e
          | .ok () =>
          match checkAuthors issue (parameters.get "authors") with
          | .error e => .error e
          | .ok () =>
          match checkMilestone issue (parameters.get "milestone") with
          | .error e => .error e
          | .ok () =>
          match checkTitleContains issue (parameters.get "title_contains") with
          | .error e => .error e
          | .ok () =>
          match checkBodyContains issue (parameters.get "body_contains") with
          | .error e => .error e
          | .ok () =>
          match checkState issue (parameters.get "state") with
          | .error e => .error e
          | .ok () => .ok payload

/-! ## Shared concrete instances used by witnesses and counterexamples -/

/-- A concrete stand-in HMAC hexdigest: injective in both arguments. -/
def macDemo (key msg : String) : String := key ++ "#" ++ msg

/-- A JSON decoder for witnesses on paths that never reach decoding. -/
def decodeDemo : String → Option Json := fun _ => none

/-- Concrete GitHub subscription properties with a webhook id and repo. -/
def ghDeleteProps : Json :=
  .obj [("external_id", .str "42"), ("repository", .str "octo/repo")]

/-- Concrete Google Calendar subscription properties with channel metadata. -/
def gcalDeleteProps : Json :=
  .obj [("channel_id", .str "chan-1"), ("resource_id", .str "res-1")]

/-! ## Claim theorems -/

/-- C3 counterexample: with complete subscription properties, a provider 404
makes GitHub's `_delete_subscription` raise `UnsubscribeError` (code
`WEBHOOK_NOT_FOUND`) instead of returning `UnsubscribeResult(success=true)`,
and makes Google Calendar's `_delete_subscription` return `success=false`. -/
theorem delete_subscription_404_not_success :
    githubDeleteSubscription ghDeleteProps ⟨404, .obj []⟩
      = .error (.unsubscribe
          "Webhook 42 not found in repository octo/repo" "WEBHOOK_NOT_FOUND")
  ∧ gcalDeleteSubscription (some "tok") gcalDeleteProps 404
      = ⟨false, "Failed to stop Google Calendar channel"⟩ := by
  constructor <;> rfl

/-- C3 (amended): on a provider 404 for an already-gone resource, GitHub's
delete raises `UnsubscribeError` with error code `WEBHOOK_NOT_FOUND` (it
returns success only on 204), and Google Calendar's delete returns
`UnsubscribeResult` with `success=false`; neither reports `success=true`. -/
theorem delete_subscription_404_behaviour
    (props : Json) (resp : ProviderResp) (tok : String) (gprops : Json)
    (hid : (props.get "external_id").truthy = true)
    (hrepo : props.get "repository" = .str "octo/repo")
    (h404 : resp.status = 404) (gstop : Nat) (hg : gstop = 404) :
    (∃ msg, githubDeleteSubscription props resp
      = .error (.unsubscribe msg "WEBHOOK_NOT_FOUND"))
  ∧ (gcalDeleteSubscription (some tok) gprops gstop).success = false := by
  constructor
  · exact ⟨"Webhook " ++ (props.get "external_id").pyStr
      ++ " not found in repository " ++ (Json.str "octo/repo").pyStr, by
        simp only [githubDeleteSubscription, hrepo, hid, h404]
        rfl⟩
  · subst hg
    simp only [gcalDeleteSubscription, gcalStopChannel]
    split <;> simp

/-- Witness for C3 (amended) at concrete inputs. -/
theorem delete_subscription_404_behaviour_witness :
    (∃ msg, githubDeleteSubscription ghDeleteProps ⟨404, .obj []⟩
      = .error (.unsubscribe msg "WEBHOOK_NOT_FOUND"))
  ∧ (gcalDeleteSubscription (some "tok") gcalDeleteProps 404).success = false :=
  delete_subscription_404_behaviour ghDeleteProps ⟨404, .obj []⟩ "tok" gcalDeleteProps
    (by rfl) (by rfl) (by rfl) 404 (by rfl)

/-- A GitHub issues payload in the shape `IssuesUnifiedEvent` actually
consumes: the labels live on the `issue` object as label objects. -/
def ghIssuePayload : Json :=
  .obj [("action", .str "opened"),
    ("issue", .obj [("labels", .arr [.obj [("name", .str "bug")]])])]

/-- Projector parameters `actions=["opened","closed"], labels="bug,feature"`. -/
def ghIssueParamsMatch : Json :=
  .obj [("actions", .arr [.str "opened", .str "closed"]), ("labels", .str "bug,feature")]

/-- Projector parameters with only `labels="feature"`. -/
def ghIssueParamsNoMatch : Json := .obj [("labels", .str "feature")]

/-- The claim's literal payload `{"action": "opened", "labels": ["bug"]}`
(no `issue` object). -/
def ghIssueLiteralPayload : Json :=
  .obj [("action", .str "opened"), ("labels", .arr [.str "bug"])]

/-- A payload whose action `"closed"` is outside the configured actions. -/
def ghPayloadClosedAction : Json :=
  .obj [("action", .str "closed"),
    ("issue", .obj [("labels", .arr [.obj [("name", .str "bug")]])])]

/-- Parameters `actions=["opened"]` with an arbitrary labels filter. -/
def ghParamsActionsOnly (labelsVal : Json) : Json :=
  .obj [("actions", .arr [.str "opened"]), ("labels", labelsVal)]

/-- C8 counterexample: on the claim's literal payload
`{"action": "opened", "labels": ["bug"]}` the issues projector raises
`ValueError("No issue in payload")` — it does not emit `Variables` — because
`_on_event` requires an `issue` mapping and reads labels from
`issue["labels"][*]["name"]`. -/
theorem issues_projector_literal_payload_rejected :
    issuesOnEvent (some ghIssueLiteralPayload) ghIssueParamsMatch
      = .error (.valueError "No issue in payload") := rfl

/-- C8 (amended): unset filters are vacuously true; a comma-separated
multi-valued filter is parsed into a list and matched with OR semantics; the
first failing filter raises `Ignore` (independently of later filters); and
for payload `{"action": "opened", "issue": {"labels": [{"name": "bug"}]}}`
with `actions=["opened","closed"]` and `labels="bug,feature"` the projector
emits `Variables`, while with `labels="feature"` it raises `Ignore`. -/
theorem issues_projector_filter_semantics :
    (∀ issue : Json,
      checkLabels issue .null = .ok () ∧ checkAssignee issue .null = .ok ()
      ∧ checkAuthors issue .null = .ok () ∧ checkMilestone issue .null = .ok ()
      ∧ checkTitleContains issue .null = .ok ()
      ∧ checkBodyContains issue .null = .ok () ∧ checkState issue .null = .ok ())
  ∧ normalizeList (.str "bug,feature") false = ["bug", "feature"]
  ∧ issuesOnEvent (some ghIssuePayload) ghIssueParamsMatch = .ok ghIssuePayload
  ∧ issuesOnEvent (some ghIssuePayload) ghIssueParamsNoMatch = .error .ignore
  ∧ (∀ labelsVal : Json,
      issuesOnEvent (some ghPayloadClosedAction) (ghParamsActionsOnly labelsVal)
        = .error .ignore) :=
  ⟨fun _ => ⟨rfl, rfl, rfl, rfl, rfl, rfl, rfl⟩, rfl, rfl, rfl, fun _ => rfl⟩

/-- Appending after a fixed string is injective. -/
lemma string_append_left_injective (s : String) {a b : String}
    (h : s ++ a = s ++ b) : a = b := by
  have hdata : (s ++ a).data = (s ++ b).data := congrArg String.data h
  simp only [String.data_append] at hdata
  cases a with
  | mk da =>
    cases b with
    | mk db =>
      exact congrArg String.mk (List.append_cancel_left hdata)

/-- Raw body and tampered body used by the Slack witnesses. -/
def slackDemoBody : String := "\x7b\"a\":1\x7d"

/-- The tampered body. -/
def slackTamperedBody : String := "\x7b\"a\":2\x7d"

/-- A Slack request whose signature is correct for `slackDemoBody`. -/
def slackReqSigned : SlackRequest :=
  ⟨none, some "0", some (slackBuildSignature macDemo "s3cr3t" "0" slackDemoBody),
   slackDemoBody⟩

/-- The same signature header presented with a tampered body. -/
def slackReqTampered : SlackRequest :=
  ⟨none, some "0", some (slackBuildSignature macDemo "s3cr3t" "0" slackDemoBody),
   slackTamperedBody⟩

/-- C2: the Slack-style expected signature is `"v0=" +` HMAC-SHA256 over
`"v0:" + timestamp + ":" + raw_body`; a request whose timestamp differs from
the current time by more than 300 seconds is rejected with the
timestamp-tolerance error no matter what signature it carries (the HMAC is
never consulted); and a signature computed over a different body is rejected
whenever the HMAC digests of the two base strings differ. The comparison in
the source is `hmac.compare_digest`, functionally string equality. -/
theorem slack_signature_window_and_tamper :
    (∀ (mac : String → String → String) (secret ts body : String),
      slackBuildSignature mac secret ts body
        = "v0=" ++ mac secret ("v0:" ++ ts ++ ":" ++ body))
  ∧ (∀ (mac : String → String → String) (decode : String → Option Json)
      (now t : Int) (secret : String) (req : SlackRequest) (ts : String),
      req.timestampHeader = some ts → pyInt? ts = some t →
      (now - t).natAbs > 300 →
      slackParseRequest mac decode now secret req
        = .error (.validation "Slack request timestamp is outside the allowed tolerance"))
  ∧ (∀ (mac : String → String → String) (decode : String → Option Json)
      (now t : Int) (secret : String) (req : SlackRequest) (ts origBody : String),
      req.timestampHeader = some ts → pyInt? ts = some t →
      (now - t).natAbs ≤ 300 →
      req.signatureHeader = some (slackBuildSignature mac secret ts origBody) →
      mac secret ("v0:" ++ ts ++ ":" ++ req.body)
        ≠ mac secret ("v0:" ++ ts ++ ":" ++ origBody) →
      slackParseRequest mac decode now secret req
        = .error (.validation "Invalid Slack signature")) := by
  refine ⟨fun _ _ _ _ => rfl, ?_, ?_⟩
  · intro mac decode now t secret req ts hts hint hwin
    simp only [slackParseRequest, hts, hint, slackMaxSignatureAge]
    rw [if_pos]
    simpa using hwin
  · intro mac decode now t secret req ts origBody hts hint hwin hsig hneq
    simp only [slackParseRequest, hts, hint, slackMaxSignatureAge, hsig]
    rw [if_neg (by simpa using Nat.not_lt.mpr hwin), if_pos]
    intro h
    exact hneq (string_append_left_injective "v0=" h).symm

/-- Witness for C2: a correct signature 301 seconds old is rejected on the
timestamp window; the same signature over a tampered body is rejected as an
invalid signature. -/
theorem slack_signature_window_and_tamper_witness :
    slackParseRequest macDemo decodeDemo 301 "s3cr3t" slackReqSigned
      = .error (.validation "Slack request timestamp is outside the allowed tolerance")
  ∧ slackParseRequest macDemo decodeDemo 0 "s3cr3t" slackReqTampered
      = .error (.validation "Invalid Slack signature") :=
  ⟨slack_signature_window_and_tamper.2.1 macDemo decodeDemo 301 0 "s3cr3t"
      slackReqSigned "0" rfl rfl (by decide),
   slack_signature_window_and_tamper.2.2 macDemo decodeDemo 0 0 "s3cr3t"
      slackReqTampered "0" slackDemoBody rfl rfl (by decide) rfl (by decide)⟩

/-- C6: a Slack delivery carrying a non-empty `X-Slack-Retry-Num` header is
short-circuited to `events=[]` with a 200 `"{}"` response; the subscription
store is returned unchanged and the dispatcher's key-access log is empty (no
read or write of persisted cursor state). -/
theorem slack_retry_short_circuit
    (mac : String → String → String) (decode : String → Option Json) (now : Int)
    (catalogKeys : List String) (eventKeyByType : List (String × String))
    (properties : Json) (req : SlackRequest) (st : Store) (r : String)
    (hsecret : (properties.get "signing_secret").orEmptyStr ≠ "")
    (hretry : req.retryNumHeader = some r) (hr : r ≠ "") :
    slackDispatchEvent mac decode now catalogKeys eventKeyByType properties req st
      = (.ok { events := [], response := ⟨"{}", 200, "application/json"⟩ }, st, []) := by
  simp only [slackDispatchEvent, hretry, Option.getD_some]
  rw [if_neg (by simpa using hsecret), if_pos (by simpa using hr)]

/-- Slack subscription properties with a non-empty signing secret. -/
def slackDemoProps : Json := .obj [("signing_secret", .str "sec")]

/-- A retried Slack delivery. -/
def slackReqRetry : SlackRequest := ⟨some "1", none, none, ""⟩

/-- Witness for C6 at concrete inputs. -/
theorem slack_retry_short_circuit_witness :
    slackDispatchEvent macDemo decodeDemo 0 [] [] slackDemoProps slackReqRetry []
      = (.ok { events := [], response := ⟨"{}", 200, "application/json"⟩ }, [], []) :=
  slack_retry_short_circuit macDemo decodeDemo 0 [] [] slackDemoProps slackReqRetry
    [] "1" (by decide) rfl (by decide)

/-- The Slack `url_verification` body used by the C5 witness. -/
def slackUrlVerifBody : String :=
  "\x7b\"type\": \"url_verification\", \"challenge\": \"xyz\"\x7d"

/-- A decoder recognising exactly the C5 witness body. -/
def slackDecodeUrlVerif : String → Option Json := fun s =>
  if s == slackUrlVerifBody then
    some (.obj [("type", .str "url_verification"), ("challenge", .str "xyz")])
  else none

/-- A Dropbox provider never consulted by the handshake path. -/
def dbxProviderNone : String → DbxPage := fun _ => ⟨200, [], .null, false⟩

/-- C5: a challenge handshake produces `events=[]` and a response body equal
to the challenge token, not an error. Dropbox: a GET carrying a non-empty
`challenge` query argument is answered with exactly that token. Slack: an
authenticated `url_verification` payload with a non-empty string challenge is
answered with exactly the challenge, resolves no event, and leaves the store
untouched. -/
theorem challenge_handshake_echoes_token :
    (∀ (mac : String → String → String) (decode : String → Option Json)
      (tokenHash : String → String) (latestCursor : Except TriggerErr String)
      (provider : String → DbxPage) (now : Int) (faults : StoreFaults)
      (properties : Json) (req : DropboxRequest) (st : Store) (c : String),
      req.method = "GET" → req.challengeArg = some c → c ≠ "" →
      dropboxDispatchEvent mac decode tokenHash latestCursor provider now faults
          properties req st
        = (.ok { events := [], response := ⟨c, 200, "text/plain"⟩ }, st))
  ∧ (∀ (mac : String → String → String) (decode : String → Option Json)
      (now t : Int) (catalogKeys : List String)
      (eventKeyByType : List (String × String)) (properties : Json)
      (req : SlackRequest) (st : Store) (ts c : String) (payload : Json),
      (properties.get "signing_secret").orEmptyStr ≠ "" →
      req.retryNumHeader = none →
      req.timestampHeader = some ts → pyInt? ts = some t →
      (now - t).natAbs ≤ 300 →
      req.signatureHeader
        = some (slackBuildSignature mac ((properties.get "signing_secret").orEmptyStr)
            ts req.body) →
      decode req.body = some payload →
      payload.get "type" = .str "url_verification" →
      payload.get "challenge" = .str c → c ≠ "" →
      slackDispatchEvent mac decode now catalogKeys eventKeyByType properties req st
        = (.ok { events := [], response := ⟨c, 200, "text/plain"⟩ }, st, [])) := by
  constructor
  · intro mac decode tokenHash latestCursor provider now faults properties req st c
      hmethod hchal hc
    simp only [dropboxDispatchEvent, hmethod, hchal]
    rw [if_pos (show (("GET" : String) == "GET") = true from rfl), if_pos hc]
  · intro mac decode now t catalogKeys eventKeyByType properties req st ts c payload
      hsecret hretry hts hint hwin hsig hdecode htype hchal hc
    simp only [slackDispatchEvent, hretry, Option.getD_none]
    rw [if_neg (by simpa using hsecret), if_neg (by simp)]
    simp only [slackParseRequest, hts, hint, slackMaxSignatureAge, hsig]
    rw [if_neg (by simpa using Nat.not_lt.mpr hwin), if_neg (by simp)]
    simp only [hdecode, htype, Json.isStr, hchal]
    rw [if_pos (show (("url_verification" : String) == "url_verification") = true from rfl),
      if_neg (show ¬((c == "") = true) from by simpa using hc)]
    simp only [slackDetermineEvent, htype, Json.isStr]
    rfl

/-- Witness for C5: Dropbox GET with `challenge="xyz"` echoes `"xyz"`, and a
signed Slack `url_verification` with challenge `"xyz"` echoes `"xyz"`. -/
theorem challenge_handshake_echoes_token_witness :
    dropboxDispatchEvent macDemo decodeDemo (fun s => s) (.ok "c") dbxProviderNone 0
        noFaults (.obj []) ⟨"GET", some "xyz", none, "", none⟩ []
      = (.ok { events := [], response := ⟨"xyz", 200, "text/plain"⟩ }, [])
  ∧ slackDispatchEvent macDemo slackDecodeUrlVerif 0 [] [] slackDemoProps
        ⟨none, some "0",
         some (slackBuildSignature macDemo "sec" "0" slackUrlVerifBody),
         slackUrlVerifBody⟩ []
      = (.ok { events := [], response := ⟨"xyz", 200, "text/plain"⟩ }, [], []) :=
  ⟨challenge_handshake_echoes_token.1 macDemo decodeDemo (fun s => s) (.ok "c")
      dbxProviderNone 0 noFaults (.obj []) ⟨"GET", some "xyz", none, "", none⟩ []
      "xyz" rfl rfl (by decide),
   challenge_handshake_echoes_token.2 macDemo slackDecodeUrlVerif 0 0 [] []
      slackDemoProps
      ⟨none, some "0",
       some (slackBuildSignature macDemo "sec" "0" slackUrlVerifBody),
       slackUrlVerifBody⟩ [] "0" "xyz"
      (.obj [("type", .str "url_verification"), ("challenge", .str "xyz")])
      (by decide) rfl rfl rfl (by decide) rfl (by rfl) rfl rfl (by decide)⟩

/-- `_validate_payload` reads only the content type, form payload and body of
the request. -/
lemma githubValidatePayload_congr (decode : String → Option Json)
    (r1 r2 : GithubRequest) (h1 : r1.contentType = r2.contentType)
    (h2 : r1.formPayload = r2.formPayload) (h3 : r1.body = r2.body) :
    githubValidatePayload decode r1 = githubValidatePayload decode r2 := by
  simp only [githubValidatePayload, h1, h2, h3]

/-- C9: GitHub signature validation is gated on `webhook_secret`. Without a
truthy secret in the subscription properties the dispatch outcome is
independent of the `X-Hub-Signature-256` header (no signature check at all),
and a delivery with no signature header is dispatched normally; with a secret
present, a missing/empty signature header or a signature different from
`"sha256=" + HMAC(secret, body)` is rejected before any parsing. -/
theorem github_signature_only_with_secret :
    (∀ (mac : String → String → String) (decode : String → Option Json)
      (properties : Json) (req : GithubRequest) (sig1 sig2 : Option String),
      (properties.get "webhook_secret").truthy = false →
      githubDispatchEvent mac decode properties { req with signatureHeader := sig1 }
        = githubDispatchEvent mac decode properties { req with signatureHeader := sig2 })
  ∧ (∀ (mac : String → String → String) (decode : String → Option Json)
      (properties : Json) (req : GithubRequest) (et : String) (p : Json)
      (evs : List String),
      (properties.get "webhook_secret").truthy = false →
      req.eventHeader = some et → et ≠ "" →
      githubValidatePayload decode req = .ok p →
      githubDispatchTriggerEvents et p = .ok evs →
      githubDispatchEvent mac decode properties req
        = .ok { userId := (match (p.get "sender").get "id" with
                          | .null => "unknown"
                          | v => v.pyStr),
                events := evs,
                response := ⟨"\x7b\"status\": \"ok\"\x7d", 200, "application/json"⟩ })
  ∧ (∀ (mac : String → String → String) (decode : String → Option Json)
      (properties : Json) (req : GithubRequest),
      (properties.get "webhook_secret").truthy = true →
      (req.signatureHeader = none ∨ req.signatureHeader = some "") →
      githubDispatchEvent mac decode properties req
        = .error (.validation "Missing webhook signature"))
  ∧ (∀ (mac : String → String → String) (decode : String → Option Json)
      (properties : Json) (req : GithubRequest) (s : String),
      (properties.get "webhook_secret").truthy = true →
      req.signatureHeader = some s → s ≠ "" →
      s ≠ "sha256=" ++ mac (properties.get "webhook_secret").pyStr req.body →
      githubDispatchEvent mac decode properties req
        = .error (.validation "Invalid webhook signature")) := by
  refine ⟨?_, ?_, ?_, ?_⟩
  · intro mac decode properties req sig1 sig2 hsec
    simp only [githubDispatchEvent, hsec, Bool.false_eq_true, if_false]
    rw [githubValidatePayload_congr decode { req with signatureHeader := sig1 }
      { req with signatureHeader := sig2 } rfl rfl rfl]
  · intro mac decode properties req et p evs hsec hevent het hpayload hevs
    simp only [githubDispatchEvent, hsec, Bool.false_eq_true, if_false, hevent,
      Option.getD_some, hpayload, hevs]
    rw [if_neg (by simpa using het)]
  · intro mac decode properties req hsec hsig
    simp only [githubDispatchEvent, githubValidateSignature, hsec, if_true]
    cases hsig with
    | inl h => simp only [h]
    | inr h => simp only [h]; rfl
  · intro mac decode properties req s hsec hsig hs hbad
    simp only [githubDispatchEvent, githubValidateSignature, hsec, if_true, hsig]
    rw [if_neg (by simpa using hs), if_pos hbad]

/-- GitHub subscription properties without a webhook secret. -/
def ghPropsNoSecret : Json := .obj [("repository", .str "octo/repo")]

/-- GitHub subscription properties with a webhook secret. -/
def ghPropsSecret : Json := .obj [("webhook_secret", .str "wh")]

/-- A decoder recognising exactly the ping body used by the C9 witness. -/
def decodePing : String → Option Json := fun s =>
  if s == "\x7b\"zen\": \"ok\"\x7d" then some (.obj [("zen", .str "ok")]) else none

/-- A GitHub ping delivery with no signature header. -/
def ghPingReq : GithubRequest :=
  ⟨none, some "ping", "application/json", none, "\x7b\"zen\": \"ok\"\x7d"⟩

/-- Witness for C9: without a secret a ping with no signature is dispatched
to `["ping"]`; with a secret, a missing signature is rejected. -/
theorem github_signature_only_with_secret_witness :
    githubDispatchEvent macDemo decodePing ghPropsNoSecret ghPingReq
      = .ok { userId := "unknown", events := ["ping"],
              response := ⟨"\x7b\"status\": \"ok\"\x7d", 200, "application/json"⟩ }
  ∧ githubDispatchEvent macDemo decodePing ghPropsSecret ghPingReq
      = .error (.validation "Missing webhook signature") :=
  ⟨github_signature_only_with_secret.2.1 macDemo decodePing ghPropsNoSecret
      ghPingReq "ping" (.obj [("zen", .str "ok")]) ["ping"]
      (by decide) rfl (by decide) (by rfl) (by rfl),
   github_signature_only_with_secret.2.2.1 macDemo decodePing ghPropsSecret
      ghPingReq (by decide) (Or.inl rfl)⟩

/-- The Gmail combined payload when the history delta is empty. -/
def gmailEmptyPayload (hid : String) : Json :=
  .obj [("historyId", .str hid), ("messages", .arr []), ("message_added", .arr []),
    ("message_deleted", .arr []), ("label_added", .arr []), ("label_removed", .arr [])]

/-- C4: an invalidated cursor is recovered, not surfaced. Google Calendar: a
410 on the delta call makes the dispatcher bootstrap a fresh sync token,
persist it and return `events=[]` with the 200 ok response. Gmail: a non-200
on the history call yields empty changes, the checkpoint is still advanced to
the notification's historyId, and the dispatcher returns `events=[]` with the
200 ok response. Neither path raises. -/
theorem cursor_invalidation_rebootstraps
    (provider : String → Option String → CalPage) (fresh : String)
    (isRecent : Json → Bool) (f : Nat) (properties parameters : Json)
    (at_ tok : String) (req : CalRequest) (st : Store)
    (gprovider : String → Option String → GmailHistPage) (g : Nat)
    (oidc : Except TriggerErr Unit) (n : GmailNotification)
    (gat start : String) (gproperties : Json) (gst : Store)
    (hch : (properties.get "channel_id").truthy = false)
    (htk : (properties.get "channel_token").truthy = false)
    (hexist : st.exist (gcalSyncKey properties) = true)
    (hstored : st.get? (gcalSyncKey properties) = some tok)
    (hstate : pyLower (pyStrip (req.resourceStateHeader.getD "")) ≠ "sync")
    (h410 : (provider tok none).status = 410) (hfresh : fresh ≠ "")
    (hoidc : (gproperties.get "require_oidc").truthy = false)
    (ghexist : gst.exist (gmailCheckpointKey gproperties) = true)
    (ghstored : gst.get? (gmailCheckpointKey gproperties) = some start)
    (gh200 : (gprovider start none).status ≠ 200) :
    gcalDispatchEvent provider (.ok fresh) isRecent (f + 1) properties parameters
        (some at_) req st
      = (.ok { events := [], response := gcalOk },
         st.set (gcalSyncKey properties) fresh)
  ∧ gmailDispatchEvent gprovider (g + 1) oidc (.ok n) (some gat) gproperties gst
      = (.ok { events := [], response := gmailOk,
               payload := gmailEmptyPayload n.historyId.pyStr },
         gst.set (gmailCheckpointKey gproperties) n.historyId.pyStr) := by
  constructor
  · simp only [gcalDispatchEvent, hch, htk, Bool.false_and, Bool.false_eq_true,
      if_false, hexist, if_true, hstored, Option.getD_some, gcalDispatchFetch]
    rw [if_neg (by simpa using hstate)]
    simp only [gcalFetchEventsDelta, h410]
    rw [if_pos (show ((410 : Nat) == 410) = true from rfl), if_pos hfresh]
  · simp only [gmailDispatchEvent, hoidc, Bool.false_eq_true, if_false, ghexist,
      Bool.not_true, ghstored, Option.getD_some, gmailFetchHistoryDelta]
    rw [if_pos gh200]
    rfl

/-- A Calendar delta provider that always reports 410. -/
def calProvider410 : String → Option String → CalPage := fun _ _ => ⟨410, [], none, none⟩

/-- A Gmail history provider that always fails with 500. -/
def gmailProviderDown : String → Option String → GmailHistPage := fun _ _ => ⟨500, [], none⟩

/-- Calendar subscription properties for the C4 witness. -/
def gcalDemoProps : Json := .obj [("subscription_key", .str "k")]

/-- Gmail subscription properties for the C4 witness. -/
def gmailDemoProps : Json := .obj [("subscription_key", .str "k")]

/-- Witness for C4 at concrete inputs. -/
theorem cursor_invalidation_rebootstraps_witness :
    gcalDispatchEvent calProvider410 (.ok "F") (fun _ => false) 1 gcalDemoProps
        (.obj []) (some "at") ⟨none, none, none, none⟩ [("gcal:k:sync_token", "T")]
      = (.ok { events := [], response := gcalOk },
         Store.set [("gcal:k:sync_token", "T")] "gcal:k:sync_token" "F")
  ∧ gmailDispatchEvent gmailProviderDown 1 (.ok ()) (.ok ⟨.str "200", .str "e"⟩)
        (some "at") gmailDemoProps [("gmail:k:history_checkpoint", "100")]
      = (.ok { events := [], response := gmailOk,
               payload := gmailEmptyPayload "200" },
         Store.set [("gmail:k:history_checkpoint", "100")]
           "gmail:k:history_checkpoint" "200") :=
  cursor_invalidation_rebootstraps calProvider410 "F" (fun _ => false) 0 gcalDemoProps
    (.obj []) "at" "T" ⟨none, none, none, none⟩ [("gcal:k:sync_token", "T")]
    gmailProviderDown 0 (.ok ()) ⟨.str "200", .str "e"⟩ "at" "100" gmailDemoProps
    [("gmail:k:history_checkpoint", "100")]
    (by decide) (by decide) rfl rfl (by decide) rfl (by decide)
    (by decide) rfl rfl (by decide)

/-- Reading back the key just written. -/
lemma store_get_set (st : Store) (k v : String) : (st.set k v).get? k = some v := by
  simp [Store.get?, Store.set, List.find?]

/-- A written key exists. -/
lemma store_exist_set (st : Store) (k v : String) : (st.set k v).exist k = true := by
  simp [Store.exist, store_get_set]

/-- Re-writing the same value leaves the store unchanged. -/
lemma store_set_set_same (st : Store) (k v : String) :
    (st.set k v).set k v = st.set k v := by
  simp only [Store.set, List.filter_cons]
  simp [List.filter_filter]

/-- Every successful Gmail dispatch (parsed notification, access token at
hand) leaves the checkpoint at the notification's `historyId` — on the
first-notification path and on the fetch path alike, whatever the events. -/
lemma gmail_dispatch_ok_sets_checkpoint
    (provider : String → Option String → GmailHistPage) (fuel : Nat)
    (oidc : Except TriggerErr Unit) (n : GmailNotification) (tok : String)
    (properties : Json) (st : Store) (d : EventDispatch)
    (hoidc : (properties.get "require_oidc").truthy = false)
    (h : (gmailDispatchEvent provider fuel oidc (.ok n) (some tok) properties st).1
      = .ok d) :
    (gmailDispatchEvent provider fuel oidc (.ok n) (some tok) properties st).2
      = st.set (gmailCheckpointKey properties) n.historyId.pyStr := by
  simp only [gmailDispatchEvent, hoidc, Bool.false_eq_true, if_false] at h ⊢
  by_cases hex : st.exist (gmailCheckpointKey properties)
  · simp only [hex, Bool.not_true, Bool.false_eq_true, if_false] at h ⊢
    cases hfetch : gmailFetchHistoryDelta provider
        ((st.get? (gmailCheckpointKey properties)).getD "") fuel none
        ⟨[], [], [], []⟩ with
    | error e => rw [hfetch] at h; exact absurd h (by simp)
    | ok delta => rfl
  · simp only [hex, Bool.not_false, if_true]

/-- Dispatching the same Gmail notification against a store whose checkpoint
is already at that notification's `historyId` leaves the store exactly as it
is, whether the fetch succeeds or fails. -/
lemma gmail_dispatch_after_set_store_unchanged
    (provider : String → Option String → GmailHistPage) (fuel : Nat)
    (oidc : Except TriggerErr Unit) (n : GmailNotification) (tok : String)
    (properties : Json) (st : Store)
    (hoidc : (properties.get "require_oidc").truthy = false) :
    (gmailDispatchEvent provider fuel oidc (.ok n) (some tok) properties
        (st.set (gmailCheckpointKey properties) n.historyId.pyStr)).2
      = st.set (gmailCheckpointKey properties) n.historyId.pyStr := by
  simp only [gmailDispatchEvent, hoidc, Bool.false_eq_true, if_false,
    store_exist_set, Bool.not_true]
  cases hfetch : gmailFetchHistoryDelta provider
      (((st.set (gmailCheckpointKey properties) n.historyId.pyStr).get?
        (gmailCheckpointKey properties)).getD "") fuel none ⟨[], [], [], []⟩ with
  | error e => rfl
  | ok delta => exact store_set_set_same st _ _

/-- The Calendar delta path persists the fetched sync token before returning
its (successful) `EventDispatch`. -/
lemma gcal_dispatch_delta_persists
    (provider : String → Option String → CalPage)
    (bootstrapToken : Except TriggerErr String) (isRecent : Json → Bool)
    (fuel : Nat) (properties parameters : Json) (at_ tok : String)
    (req : CalRequest) (st : Store) (items : List Json) (nst : String)
    (hch : (properties.get "channel_id").truthy = false)
    (htk : (properties.get "channel_token").truthy = false)
    (hexist : st.exist (gcalSyncKey properties) = true)
    (hstored : st.get? (gcalSyncKey properties) = some tok)
    (hstate : pyLower (pyStrip (req.resourceStateHeader.getD "")) ≠ "sync")
    (hfetch : gcalFetchEventsDelta provider tok fuel none [] = .ok (items, nst))
    (hnst : nst ≠ "") :
    ∃ d, gcalDispatchEvent provider bootstrapToken isRecent fuel properties
        parameters (some at_) req st
      = (.ok d, st.set (gcalSyncKey properties) nst) := by
  simp only [gcalDispatchEvent, hch, htk, Bool.false_and, Bool.false_eq_true,
    if_false, hexist, if_true, hstored, Option.getD_some, gcalDispatchFetch]
  rw [if_neg (by simpa using hstate)]
  simp only [hfetch]
  simp only [if_pos hnst]
  exact ⟨_, rfl⟩

/-- Replaying a Calendar webhook against an unchanged provider delta (the
provider answers the stored token with no items and the same token) leaves
the store unchanged and resolves no events. -/
lemma gcal_dispatch_replay_unchanged
    (provider : String → Option String → CalPage)
    (bootstrapToken : Except TriggerErr String) (isRecent : Json → Bool)
    (f : Nat) (properties parameters : Json) (at_ nst : String)
    (req : CalRequest) (st : Store)
    (hch : (properties.get "channel_id").truthy = false)
    (htk : (properties.get "channel_token").truthy = false)
    (hstate : pyLower (pyStrip (req.resourceStateHeader.getD "")) ≠ "sync")
    (hprov : provider nst none = ⟨200, [], none, some nst⟩) (hnst : nst ≠ "") :
    ∃ d, gcalDispatchEvent provider bootstrapToken isRecent (f + 1) properties
        parameters (some at_) req (st.set (gcalSyncKey properties) nst)
      = (.ok d, st.set (gcalSyncKey properties) nst) ∧ d.events = [] := by
  simp only [gcalDispatchEvent, hch, htk, Bool.false_and, Bool.false_eq_true,
    if_false, store_exist_set, if_true, store_get_set, Option.getD_some,
    gcalDispatchFetch]
  rw [if_neg (by simpa using hstate)]
  simp only [gcalFetchEventsDelta, hprov]
  rw [if_neg (show ¬((((200 : Nat) == 410)) = true) from by decide),
    if_neg (show ¬((200 : Nat) ≠ 200) from by decide)]
  simp only [List.filter_nil, List.append_nil, List.nil_append]
  simp only [if_pos hnst]
  rw [store_set_set_same]
  refine ⟨_, rfl, ?_⟩
  simp [gcalClassify]

/-- C1: incremental-fetch dispatchers persist the new cursor before
returning and re-delivery does not advance it again. Gmail: every successful
dispatch leaves the checkpoint at the notification's historyId (also with an
empty event list), and re-dispatching the same notification — whatever the
provider then answers — leaves the store exactly where the first dispatch
left it. Google Calendar: the delta path persists the fetched sync token
together with its successful `EventDispatch`, and replaying the webhook when
the provider's delta is unchanged leaves the stored token unchanged and
resolves no events. -/
theorem incremental_cursor_persist_and_replay :
    (∀ (provider : String → Option String → GmailHistPage) (fuel : Nat)
      (oidc : Except TriggerErr Unit) (n : GmailNotification) (tok : String)
      (properties : Json) (st : Store) (d : EventDispatch),
      (properties.get "require_oidc").truthy = false →
      (gmailDispatchEvent provider fuel oidc (.ok n) (some tok) properties st).1
        = .ok d →
      ((gmailDispatchEvent provider fuel oidc (.ok n) (some tok) properties st).2).get?
          (gmailCheckpointKey properties) = some n.historyId.pyStr)
  ∧ (∀ (provider provider2 : String → Option String → GmailHistPage)
      (fuel fuel2 : Nat) (oidc oidc2 : Except TriggerErr Unit)
      (n : GmailNotification) (tok : String) (properties : Json) (st : Store)
      (d : EventDispatch),
      (properties.get "require_oidc").truthy = false →
      (gmailDispatchEvent provider fuel oidc (.ok n) (some tok) properties st).1
        = .ok d →
      (gmailDispatchEvent provider2 fuel2 oidc2 (.ok n) (some tok) properties
          (gmailDispatchEvent provider fuel oidc (.ok n) (some tok) properties st).2).2
        = (gmailDispatchEvent provider fuel oidc (.ok n) (some tok) properties st).2)
  ∧ (∀ (provider : String → Option String → CalPage)
      (bootstrapToken : Except TriggerErr String) (isRecent : Json → Bool)
      (fuel : Nat) (properties parameters : Json) (at_ tok : String)
      (req : CalRequest) (st : Store) (items : List Json) (nst : String),
      (properties.get "channel_id").truthy = false →
      (properties.get "channel_token").truthy = false →
      st.exist (gcalSyncKey properties) = true →
      st.get? (gcalSyncKey properties) = some tok →
      pyLower (pyStrip (req.resourceStateHeader.getD "")) ≠ "sync" →
      gcalFetchEventsDelta provider tok fuel none [] = .ok (items, nst) →
      nst ≠ "" →
      ∃ d, gcalDispatchEvent provider bootstrapToken isRecent fuel properties
          parameters (some at_) req st
        = (.ok d, st.set (gcalSyncKey properties) nst))
  ∧ (∀ (provider : String → Option String → CalPage)
      (bootstrapToken : Except TriggerErr String) (isRecent : Json → Bool)
      (f : Nat) (properties parameters : Json) (at_ nst : String)
      (req : CalRequest) (st : Store),
      (properties.get "channel_id").truthy = false →
      (properties.get "channel_token").truthy = false →
      pyLower (pyStrip (req.resourceStateHeader.getD "")) ≠ "sync" →
      provider nst none = ⟨200, [], none, some nst⟩ → nst ≠ "" →
      ∃ d, gcalDispatchEvent provider bootstrapToken isRecent (f + 1) properties
          parameters (some at_) req (st.set (gcalSyncKey properties) nst)
        = (.ok d, st.set (gcalSyncKey properties) nst) ∧ d.events = []) := by
  refine ⟨?_, ?_, ?_, ?_⟩
  · intro provider fuel oidc n tok properties st d hoidc h
    rw [gmail_dispatch_ok_sets_checkpoint provider fuel oidc n tok properties st d
      hoidc h]
    exact store_get_set st _ _
  · intro provider provider2 fuel fuel2 oidc oidc2 n tok properties st d hoidc h
    rw [gmail_dispatch_ok_sets_checkpoint provider fuel oidc n tok properties st d
      hoidc h]
    exact gmail_dispatch_after_set_store_unchanged provider2 fuel2 oidc2 n tok
      properties st hoidc
  · intro provider bootstrapToken isRecent fuel properties parameters at_ tok req
      st items nst hch htk hexist hstored hstate hfetch hnst
    exact gcal_dispatch_delta_persists provider bootstrapToken isRecent fuel
      properties parameters at_ tok req st items nst hch htk hexist hstored hstate
      hfetch hnst
  · intro provider bootstrapToken isRecent f properties parameters at_ nst req st
      hch htk hstate hprov hnst
    exact gcal_dispatch_replay_unchanged provider bootstrapToken isRecent f
      properties parameters at_ nst req st hch htk hstate hprov hnst

/-- A Gmail history provider whose delta is empty. -/
def gmailProviderEmpty : String → Option String → GmailHistPage :=
  fun _ _ => ⟨200, [], none⟩

/-- A Calendar delta provider: token `"T"` advances to `"U"`; every other
token is answered with itself and no items (unchanged delta). -/
def calProviderW : String → Option String → CalPage :=
  fun t _ => ⟨200, [], none, some (if t == "T" then "U" else t)⟩

/-- Witness for C1 at concrete inputs: a Gmail delivery with checkpoint
`"100"` and notification `"200"`, re-delivered; a Calendar delivery moving
the sync token from `"T"` to `"U"`, replayed against an unchanged delta. -/
theorem incremental_cursor_persist_and_replay_witness :
    ((gmailDispatchEvent gmailProviderEmpty 1 (.ok ()) (.ok ⟨.str "200", .str "e"⟩)
        (some "at") gmailDemoProps [("gmail:k:history_checkpoint", "100")]).2).get?
        (gmailCheckpointKey gmailDemoProps) = some "200"
  ∧ (gmailDispatchEvent gmailProviderEmpty 1 (.ok ()) (.ok ⟨.str "200", .str "e"⟩)
        (some "at") gmailDemoProps
        (gmailDispatchEvent gmailProviderEmpty 1 (.ok ()) (.ok ⟨.str "200", .str "e"⟩)
          (some "at") gmailDemoProps [("gmail:k:history_checkpoint", "100")]).2).2
      = (gmailDispatchEvent gmailProviderEmpty 1 (.ok ()) (.ok ⟨.str "200", .str "e"⟩)
          (some "at") gmailDemoProps [("gmail:k:history_checkpoint", "100")]).2
  ∧ (∃ d, gcalDispatchEvent calProviderW (.ok "B") (fun _ => false) 1 gcalDemoProps
        (.obj []) (some "at") ⟨none, none, none, none⟩ [("gcal:k:sync_token", "T")]
      = (.ok d, Store.set [("gcal:k:sync_token", "T")] (gcalSyncKey gcalDemoProps) "U"))
  ∧ (∃ d, gcalDispatchEvent calProviderW (.ok "B") (fun _ => false) 1 gcalDemoProps
        (.obj []) (some "at") ⟨none, none, none, none⟩
        (Store.set [("gcal:k:sync_token", "T")] (gcalSyncKey gcalDemoProps) "U")
      = (.ok d, Store.set [("gcal:k:sync_token", "T")] (gcalSyncKey gcalDemoProps) "U")
      ∧ d.events = []) :=
  ⟨incremental_cursor_persist_and_replay.1 gmailProviderEmpty 1 (.ok ())
      ⟨.str "200", .str "e"⟩ "at" gmailDemoProps
      [("gmail:k:history_checkpoint", "100")]
      { events := [], response := gmailOk, payload := gmailEmptyPayload "200" }
      (by decide) rfl,
   incremental_cursor_persist_and_replay.2.1 gmailProviderEmpty gmailProviderEmpty
      1 1 (.ok ()) (.ok ()) ⟨.str "200", .str "e"⟩ "at" gmailDemoProps
      [("gmail:k:history_checkpoint", "100")]
      { events := [], response := gmailOk, payload := gmailEmptyPayload "200" }
      (by decide) rfl,
   incremental_cursor_persist_and_replay.2.2.1 calProviderW (.ok "B")
      (fun _ => false) 1 gcalDemoProps (.obj []) "at" "T" ⟨none, none, none, none⟩
      [("gcal:k:sync_token", "T")] [] "U" (by decide) (by decide) rfl rfl
      (by decide) rfl (by decide),
   incremental_cursor_persist_and_replay.2.2.2 calProviderW (.ok "B")
      (fun _ => false) 0 gcalDemoProps (.obj []) "at" "U" ⟨none, none, none, none⟩
      [("gcal:k:sync_token", "T")] (by decide) (by decide) (by decide) rfl
      (by decide)⟩

/-- A decoder recognising exactly the `"{}"` body. -/
def decodeEmptyObj : String → Option Json := fun s =>
  if s == "{}" then some (.obj []) else none

/-- A Dropbox provider that always has more pages: every page carries one
entry and a strictly growing cursor. -/
def dbxEndless : String → DbxPage :=
  fun c => ⟨200, [.obj [("name", .str c)]], .str (c ++ "x"), true⟩

/-- A Dropbox provider that is exhausted after one (empty) page. -/
def dbxStop1 : String → DbxPage :=
  fun c => ⟨200, [], .str (c ++ "E"), false⟩

/-- Dropbox subscription properties with an app secret and an access token. -/
def dbxDemoProps : Json :=
  .obj [("app_secret", .str "as"), ("access_token", .str "at")]

/-- A signed Dropbox POST notification with body `"{}"`. -/
def dbxDemoReq : DropboxRequest :=
  ⟨"POST", none, some (macDemo "as" "{}"), "{}", none⟩

/-- C7 counterexample: against a provider whose delta always has more pages,
the Dropbox dispatcher stops after `_MAX_PAGES = 10` pages — the returned
`changes` hold exactly 10 entries while the provider still reports
`has_more` at the persisted cursor, so the fetch was not exhaustive. -/
theorem dropbox_pagination_cap_counterexample :
    ((dropboxDispatchEvent macDemo decodeEmptyObj (fun _ => "h") (.ok "L")
        dbxEndless 0 noFaults dbxDemoProps dbxDemoReq
        [("dropbox:last-cursor:h", "c")]).1.map
      (fun d => ((d.payload.get "changes").items.length))) = .ok 10
  ∧ (dbxEndless "cxxxxxxxxxx").hasMore = true := by
  constructor <;> rfl

/-- C7 (amended): Gmail's incremental fetch pages until the provider reports
no next page, carrying every entry of each fetched page forward; Dropbox's
dispatcher fetches at most `_MAX_PAGES = 10` pages per delivery — continuing
while `has_more` and a page budget remain, stopping with everything fetched
so far once either ends — and persists the cursor of the last fetched page,
so an over-long delta is resumed by the next delivery instead of being
fetched exhaustively in one call. -/
theorem paging_until_exhaustion_amended :
    (∀ (provider : String → Option String → GmailHistPage) (start : String)
      (fuel : Nat) (tok : Option String) (acc : GmailDelta) (t : String),
      (provider start tok).status = 200 →
      (provider start tok).nextPageToken = some t → t ≠ "" →
      gmailFetchHistoryDelta provider start (fuel + 1) tok acc
        = gmailFetchHistoryDelta provider start fuel (some t)
            (gmailAccumPage acc (provider start tok).history))
  ∧ (∀ (provider : String → Option String → GmailHistPage) (start : String)
      (fuel : Nat) (tok : Option String) (acc : GmailDelta),
      (provider start tok).status = 200 →
      (provider start tok).nextPageToken = none →
      gmailFetchHistoryDelta provider start (fuel + 1) tok acc
        = .ok (gmailAccumPage acc (provider start tok).history))
  ∧ (∀ (provider : String → DbxPage) (cursor : String) (acc : List Json),
      dbxFetchLoop provider 0 cursor acc = .ok (acc, cursor))
  ∧ (∀ (provider : String → DbxPage) (k : Nat) (cursor : String)
      (acc page : List Json) (c' : String),
      dbxListFolderContinue provider cursor = .ok (page, c', true) →
      dbxFetchLoop provider (k + 1) cursor acc
        = dbxFetchLoop provider k c' (acc ++ page.map dbxFormatEntry))
  ∧ (∀ (provider : String → DbxPage) (k : Nat) (cursor : String)
      (acc page : List Json) (c' : String),
      dbxListFolderContinue provider cursor = .ok (page, c', false) →
      dbxFetchLoop provider (k + 1) cursor acc
        = .ok (acc ++ page.map dbxFormatEntry, c'))
  ∧ (∀ (mac : String → String → String) (decode : String → Option Json)
      (tokenHash : String → String) (latestCursor : Except TriggerErr String)
      (provider : String → DbxPage) (now : Int) (properties : Json)
      (req : DropboxRequest) (st : Store) (payload : Json)
      (cursorBefore cursorAfter : String) (changes : List Json),
      req.method = "POST" →
      (properties.get "app_secret").orEmptyStr ≠ "" →
      req.signatureHeader
        = some (mac ((properties.get "app_secret").orEmptyStr) req.body) →
      req.body ≠ "" → decode req.body = some payload →
      (properties.get "access_token").orEmptyStr ≠ "" →
      dropboxGetStorage noFaults st
          ("dropbox:last-cursor:" ++ tokenHash ((properties.get "access_token").orEmptyStr))
        = cursorBefore →
      cursorBefore ≠ "" →
      dbxFetchLoop provider dropboxMaxPages cursorBefore [] = .ok (changes, cursorAfter) →
      ∃ d, dropboxDispatchEvent mac decode tokenHash latestCursor provider now
          noFaults properties req st
        = (.ok d, st.set
            ("dropbox:last-cursor:" ++ tokenHash ((properties.get "access_token").orEmptyStr))
            cursorAfter)
        ∧ d.events = ["file_changes"]) := by
  refine ⟨?_, ?_, ?_, ?_, ?_, ?_⟩
  · intro provider start fuel tok acc t h200 hnext ht
    simp only [gmailFetchHistoryDelta, h200, hnext]
    rw [if_neg (show ¬((200 : Nat) ≠ 200) from by decide), if_pos ht]
  · intro provider start fuel tok acc h200 hnext
    simp only [gmailFetchHistoryDelta, h200, hnext]
    rw [if_neg (show ¬((200 : Nat) ≠ 200) from by decide)]
  · intro provider cursor acc
    rfl
  · intro provider k cursor acc page c' hcont
    simp only [dbxFetchLoop, hcont]
    rw [if_pos trivial]
  · intro provider k cursor acc page c' hcont
    simp only [dbxFetchLoop, hcont]
    rfl
  · intro mac decode tokenHash latestCursor provider now properties req st payload
      cursorBefore cursorAfter changes hmethod hsecret hsig hbody hdecode htoken
      hcur hcb hloop
    simp only [dropboxDispatchEvent, hmethod, hsig, hdecode, hcur, hloop]
    rw [if_neg (show ¬((("POST" : String) == "GET") = true) from by decide),
      if_neg (show ¬(("POST" : String) ≠ "POST") from by decide),
      if_neg (by simpa using hsecret),
      if_neg (show ¬(mac (properties.get "app_secret").orEmptyStr req.body
        ≠ mac (properties.get "app_secret").orEmptyStr req.body) from by simp)]
    rw [if_neg (by simpa using hbody)]
    simp only [if_neg (show ¬(((properties.get "access_token").orEmptyStr == "") = true)
      from by simpa using htoken)]
    rw [if_neg (by simpa using hcb)]
    exact ⟨_, rfl, rfl⟩

/-- A Gmail history provider with two pages: the first carries one added
message and points at page `"2"`, the second is final and empty. -/
def gmailTwoPages : String → Option String → GmailHistPage :=
  fun _ tok =>
    match tok with
    | none => ⟨200, [.obj [("messagesAdded", .arr [.obj [("message",
        .obj [("id", .str "a"), ("threadId", .str "t")])]])]], some "2"⟩
    | some _ => ⟨200, [], none⟩

/-- Witness for C7 (amended) at concrete inputs: a two-page Gmail delta, the
Dropbox page-budget base case, continue/stop steps, and a full dispatch
persisting the cursor of the last fetched page. -/
theorem paging_until_exhaustion_amended_witness :
    gmailFetchHistoryDelta gmailTwoPages "s" 2 none ⟨[], [], [], []⟩
      = gmailFetchHistoryDelta gmailTwoPages "s" 1 (some "2")
          (gmailAccumPage ⟨[], [], [], []⟩ (gmailTwoPages "s" none).history)
  ∧ gmailFetchHistoryDelta gmailTwoPages "s" 1 (some "2")
        (gmailAccumPage ⟨[], [], [], []⟩ (gmailTwoPages "s" none).history)
      = .ok (gmailAccumPage (gmailAccumPage ⟨[], [], [], []⟩
          (gmailTwoPages "s" none).history) (gmailTwoPages "s" (some "2")).history)
  ∧ dbxFetchLoop dbxEndless 0 "c" [] = .ok ([], "c")
  ∧ dbxFetchLoop dbxEndless 1 "c" []
      = dbxFetchLoop dbxEndless 0 "cx"
          ([] ++ [Json.obj [("name", .str "c")]].map dbxFormatEntry)
  ∧ dbxFetchLoop dbxStop1 1 "c" [] = .ok ([] ++ [].map dbxFormatEntry, "cE")
  ∧ (∃ d, dropboxDispatchEvent macDemo decodeEmptyObj (fun _ => "h") (.ok "L")
        dbxStop1 0 noFaults dbxDemoProps dbxDemoReq [("dropbox:last-cursor:h", "c")]
      = (.ok d, Store.set [("dropbox:last-cursor:h", "c")] ("dropbox:last-cursor:" ++ "h") "cE")
      ∧ d.events = ["file_changes"]) :=
  ⟨paging_until_exhaustion_amended.1 gmailTwoPages "s" 1 none ⟨[], [], [], []⟩ "2"
      rfl rfl (by decide),
   paging_until_exhaustion_amended.2.1 gmailTwoPages "s" 0 (some "2")
      (gmailAccumPage ⟨[], [], [], []⟩ (gmailTwoPages "s" none).history) rfl rfl,
   paging_until_exhaustion_amended.2.2.1 dbxEndless "c" [],
   paging_until_exhaustion_amended.2.2.2.1 dbxEndless 0 "c" []
      [Json.obj [("name", .str "c")]] "cx" rfl,
   paging_until_exhaustion_amended.2.2.2.2.1 dbxStop1 0 "c" [] [] "cE" rfl,
   paging_until_exhaustion_amended.2.2.2.2.2 macDemo decodeEmptyObj (fun _ => "h")
      (.ok "L") dbxStop1 0 dbxDemoProps dbxDemoReq [("dropbox:last-cursor:h", "c")]
      (.obj []) "c" "cE" [] rfl (by decide) rfl (by decide) rfl (by decide) rfl
      (by decide) rfl⟩

/-- A store backend on which every write raises and every read succeeds. -/
def allWritesFail : StoreFaults := ⟨fun _ _ => true, fun _ => false⟩

/-- Reads are unaffected by the failing-writes backend. -/
lemma dropboxGetStorage_allWritesFail (st : Store) (k : String) :
    dropboxGetStorage allWritesFail st k = dropboxGetStorage noFaults st k := rfl

/-- `_set_storage` on the failing backend returns the store unchanged. -/
lemma dropboxSetStorage_allWritesFail (st : Store) (k v : String) :
    dropboxSetStorage allWritesFail st k v = st := rfl

/-- `_set_storage` on the healthy backend performs the write. -/
lemma dropboxSetStorage_noFaults (st : Store) (k v : String) :
    dropboxSetStorage noFaults st k v = st.set k v := rfl

/-- Drive reads are unaffected by the failing-writes backend. -/
lemma driveGetMaxPageToken_allWritesFail (st : Store) (properties : Json) :
    driveGetMaxPageToken allWritesFail st properties
      = driveGetMaxPageToken noFaults st properties := rfl

/-- `_set_max_page_token` on the failing backend returns the store unchanged. -/
lemma driveSetMaxPageToken_allWritesFail (st : Store) (v : String) :
    driveSetMaxPageToken allWritesFail st v = st := rfl

/-- `_set_max_page_token` on the healthy backend performs the write. -/
lemma driveSetMaxPageToken_noFaults (st : Store) (v : String) :
    driveSetMaxPageToken noFaults st v = st.set driveStorageKey v := rfl

/-- A two-page Drive delta: the initial token `"0"` yields one change and a
`nextPageToken` of `"1"`; token `"1"` is the final page with
`newStartPageToken` `"9"`. -/
def driveTwoPages : String → DrivePage :=
  fun t =>
    if t == "0" then ⟨200, [.obj [("fileId", .str "a")]], some "1", none⟩
    else ⟨200, [.obj [("fileId", .str "b")]], none, some "9"⟩

/-- C10 counterexample: on a two-page Drive delta the healthy run of
`_fetch_changes` returns both fetched changes and advances the token, but
with the cursor writes failing the loop re-reads the unchanged persisted
token each iteration and refetches the first page forever (the model's
`.fuel` outcome for the non-terminating `while True`): the dispatcher never
returns the success `EventDispatch` with the fetched events, so the caller
does observe that the checkpoint did not advance. -/
theorem drive_failed_cursor_write_observable :
    driveFetchChanges driveTwoPages noFaults (.obj []) 5 [] []
      = .ok ([.obj [("fileId", .str "a")], .obj [("fileId", .str "b")]],
             Store.set (Store.set [] driveStorageKey "1") driveStorageKey "9")
  ∧ driveFetchChanges driveTwoPages allWritesFail (.obj []) 5 [] []
      = .error .fuel := by
  constructor <;> rfl

/-- C10 (amended): cursor persistence in the Dropbox and Google Drive
dispatchers is best-effort — any raising `set` is suppressed by
`_set_storage` / `_set_max_page_token` (the store stays as it was and no
exception escapes). For Dropbox, on a backend where every write raises, the
dispatcher's outcome (events and payload with the fetched changes) is
identical to the healthy run while the old cursor stays in place, so the
caller cannot observe the failed write. For Google Drive this
unobservability holds only when the delta completes in a single page: on a
multi-page delta the fetch loop re-reads the persisted token each
iteration, so with the token writes failing it refetches the same first
page indefinitely instead of returning the healthy run's events. -/
theorem cursor_write_failures_amended :
    (∀ (f : StoreFaults) (st : Store) (k v : String),
      f.setFails k v = true → dropboxSetStorage f st k v = st)
  ∧ (∀ (f : StoreFaults) (st : Store) (v : String),
      f.setFails driveStorageKey v = true → driveSetMaxPageToken f st v = st)
  ∧ (∀ (mac : String → String → String) (decode : String → Option Json)
      (tokenHash : String → String) (latestCursor : Except TriggerErr String)
      (provider : String → DbxPage) (now : Int) (properties : Json)
      (req : DropboxRequest) (st : Store) (payload : Json)
      (cursorBefore cursorAfter : String) (changes : List Json),
      req.method = "POST" →
      (properties.get "app_secret").orEmptyStr ≠ "" →
      req.signatureHeader
        = some (mac ((properties.get "app_secret").orEmptyStr) req.body) →
      req.body ≠ "" → decode req.body = some payload →
      (properties.get "access_token").orEmptyStr ≠ "" →
      dropboxGetStorage noFaults st
          ("dropbox:last-cursor:" ++ tokenHash ((properties.get "access_token").orEmptyStr))
        = cursorBefore →
      cursorBefore ≠ "" →
      dbxFetchLoop provider dropboxMaxPages cursorBefore [] = .ok (changes, cursorAfter) →
      (dropboxDispatchEvent mac decode tokenHash latestCursor provider now
          allWritesFail properties req st).1
        = (dropboxDispatchEvent mac decode tokenHash latestCursor provider now
            noFaults properties req st).1
      ∧ (dropboxDispatchEvent mac decode tokenHash latestCursor provider now
          allWritesFail properties req st).2 = st
      ∧ (dropboxDispatchEvent mac decode tokenHash latestCursor provider now
          noFaults properties req st).2
        = st.set
            ("dropbox:last-cursor:" ++ tokenHash ((properties.get "access_token").orEmptyStr))
            cursorAfter)
  ∧ (∀ (provider : String → DrivePage) (properties : Json) (st : Store)
      (acc chs : List Json) (fuel : Nat) (nst : String),
      provider (driveGetMaxPageToken noFaults st properties)
        = ⟨200, chs, none, some nst⟩ →
      nst ≠ "" →
      driveFetchChanges provider allWritesFail properties (fuel + 1) st acc
        = .ok (acc ++ chs.filter Json.isObj, st)
      ∧ driveFetchChanges provider noFaults properties (fuel + 1) st acc
        = .ok (acc ++ chs.filter Json.isObj, st.set driveStorageKey nst))
  ∧ (∀ (provider : String → DrivePage) (properties : Json) (st : Store)
      (chs1 : List Json) (t1 : String),
      provider (driveGetMaxPageToken noFaults st properties)
        = ⟨200, chs1, some t1, none⟩ →
      t1 ≠ driveGetMaxPageToken noFaults st properties → t1 ≠ "" →
      ∀ (fuel : Nat) (acc : List Json),
        driveFetchChanges provider allWritesFail properties fuel st acc
          = .error .fuel) := by
  refine ⟨?_, ?_, ?_, ?_, ?_⟩
  · intro f st k v h
    simp [dropboxSetStorage, faultySet, h]
  · intro f st v h
    simp [driveSetMaxPageToken, faultySet, h]
  · intro mac decode tokenHash latestCursor provider now properties req st payload
      cursorBefore cursorAfter changes hmethod hsecret hsig hbody hdecode htoken
      hcur hcb hloop
    simp only [dropboxDispatchEvent, dropboxGetStorage_allWritesFail,
      dropboxSetStorage_allWritesFail, dropboxSetStorage_noFaults,
      hmethod, hsig, hdecode, hcur, hloop]
    simp only [if_neg (show ¬((("POST" : String) == "GET") = true) from by decide),
      if_neg (show ¬(("POST" : String) ≠ "POST") from by decide),
      if_neg (show ¬(((properties.get "app_secret").orEmptyStr == "") = true)
        from by simpa using hsecret),
      if_neg (show ¬(mac (properties.get "app_secret").orEmptyStr req.body
        ≠ mac (properties.get "app_secret").orEmptyStr req.body) from by simp),
      if_neg (show ¬((req.body == "") = true) from by simpa using hbody),
      if_neg (show ¬(((properties.get "access_token").orEmptyStr == "") = true)
        from by simpa using htoken),
      if_neg (show ¬((cursorBefore == "") = true) from by simpa using hcb)]
    exact ⟨trivial, trivial, trivial⟩
  · intro provider properties st acc chs fuel nst hprov hnst
    simp only [driveFetchChanges, driveGetMaxPageToken_allWritesFail,
      driveSetMaxPageToken_allWritesFail, driveSetMaxPageToken_noFaults, hprov]
    simp only [if_neg (show ¬((200 : Nat) ≠ 200) from by decide),
      if_neg (show ¬((false : Bool) = true) from by decide), if_pos hnst]
    exact ⟨trivial, trivial⟩
  · intro provider properties st chs1 t1 hprov hne ht1 fuel
    induction fuel with
    | zero => intro acc; rfl
    | succ k ih =>
      intro acc
      simp only [driveFetchChanges, driveGetMaxPageToken_allWritesFail,
        driveSetMaxPageToken_allWritesFail, hprov]
      simp only [if_neg (show ¬((200 : Nat) ≠ 200) from by decide),
        if_neg (show ¬((t1 == driveGetMaxPageToken noFaults st properties) = true)
          from by simpa using hne),
        if_pos ht1]
      exact ih (acc ++ chs1.filter Json.isObj)

/-- A single-page Drive provider used by the C10 witness. -/
def driveOnePage : String → DrivePage :=
  fun _ => ⟨200, [.obj [("fileId", .str "f1")]], none, some "7"⟩

/-- Witness for C10 (amended) at concrete inputs: the suppressed write
helpers, a full Dropbox dispatch whose outcome is identical on the failing
backend with the store left untouched, a single-page Drive fetch returning
the same changes either way, and a two-page Drive fetch that never
completes while the writes fail. -/
theorem cursor_write_failures_amended_witness :
    dropboxSetStorage allWritesFail [("x", "1")] "x" "2" = [("x", "1")]
  ∧ driveSetMaxPageToken allWritesFail [] "9" = []
  ∧ ((dropboxDispatchEvent macDemo decodeEmptyObj (fun _ => "h") (.ok "L")
        dbxStop1 0 allWritesFail dbxDemoProps dbxDemoReq
        [("dropbox:last-cursor:h", "c")]).1
      = (dropboxDispatchEvent macDemo decodeEmptyObj (fun _ => "h") (.ok "L")
          dbxStop1 0 noFaults dbxDemoProps dbxDemoReq
          [("dropbox:last-cursor:h", "c")]).1
    ∧ (dropboxDispatchEvent macDemo decodeEmptyObj (fun _ => "h") (.ok "L")
        dbxStop1 0 allWritesFail dbxDemoProps dbxDemoReq
        [("dropbox:last-cursor:h", "c")]).2 = [("dropbox:last-cursor:h", "c")])
  ∧ (driveFetchChanges driveOnePage allWritesFail (.obj []) 1 [] []
      = .ok ([.obj [("fileId", .str "f1")]], [])
    ∧ driveFetchChanges driveOnePage noFaults (.obj []) 1 [] []
      = .ok ([.obj [("fileId", .str "f1")]], Store.set [] driveStorageKey "7"))
  ∧ driveFetchChanges driveTwoPages allWritesFail (.obj []) 2 [] []
      = .error .fuel :=
  ⟨cursor_write_failures_amended.1 allWritesFail [("x", "1")] "x" "2" rfl,
   cursor_write_failures_amended.2.1 allWritesFail [] "9" rfl,
   (by
      have h := cursor_write_failures_amended.2.2.1 macDemo decodeEmptyObj
        (fun _ => "h") (.ok "L") dbxStop1 0 dbxDemoProps dbxDemoReq
        [("dropbox:last-cursor:h", "c")] (.obj []) "c" "cE" [] rfl (by decide) rfl
        (by decide) rfl (by decide) rfl (by decide) rfl
      exact ⟨h.1, h.2.1⟩),
   (by
      have h := cursor_write_failures_amended.2.2.2.1 driveOnePage (.obj []) [] []
        [.obj [("fileId", .str "f1")]] 0 "7" rfl (by decide)
      exact ⟨h.1, h.2⟩),
   cursor_write_failures_amended.2.2.2.2 driveTwoPages (.obj []) []
      [.obj [("fileId", .str "a")]] "1" rfl (by decide) (by decide) 2 []⟩

end DifySpec
